import Mathlib

/-!
Shallow embedding of the f1-telemetry-client decoding core (Rust).

Byte buffers are lists of naturals (each byte < 256 on the wire; readers
take bytes as stored).  Multi-byte integers are little-endian.  IEEE-754
floats are carried as their raw bit patterns (Nat); the only numeric
interpretation of a float the code performs is Duration::from_secs_f32 /
from_secs_f64, modelled bit-precisely below.  Rust Result/io::Error is
modelled by an error type, and Rust panics (Duration construction on
negative/NaN/infinite input, the unimplemented branches of the dispatcher)
by an explicit panicked outcome.
-/

/-- Round-half-even division num / den, mirroring the remainder-based
rounding in Rust Duration::try_from_secs (add one when the remainder is
above half, or exactly half with an odd quotient). -/
def roundHalfEven (num den : Nat) : Nat :=
  let q := num / den
  let r := num % den
  if 2 * r < den then q
  else if 2 * r > den then q + 1
  else if q % 2 = 0 then q else q + 1

/-- Mirror of std::time::Duration: whole seconds plus nanoseconds. -/
structure Duration where
  secs : Nat
  nanos : Nat
deriving DecidableEq, Repr

/-- Mirror of Duration::from_millis. -/
def Duration.from_millis (ms : Nat) : Duration :=
  { secs := ms / 1000, nanos := ms % 1000 * 1000000 }

/-- Mirror of Duration::from_secs. -/
def Duration.from_secs (s : Nat) : Duration :=
  { secs := s, nanos := 0 }

/-- Mirror of Duration::as_millis. -/
def Duration.as_millis (d : Duration) : Nat :=
  d.secs * 1000 + d.nanos / 1000000

/-- Generic bit-level model of the try_from_secs macro of core::time,
parameterised by mantissa and exponent widths (23/8 for f32, 52/11 for
f64).  Returns the panic message on the inputs where from_secs_f32 /
from_secs_f64 panic (negative values, and NaN/infinite/too-large values),
and the rounded Duration otherwise. -/
def durationFromFloatBits (mantBits expBits bits : Nat) : Except String Duration :=
  let sign := bits / 2 ^ (mantBits + expBits) % 2
  let biasedExp := bits / 2 ^ mantBits % 2 ^ expBits
  let frac := bits % 2 ^ mantBits
  let isNaN : Bool := biasedExp = 2 ^ expBits - 1 ∧ frac ≠ 0
  let isZero : Bool := biasedExp = 0 ∧ frac = 0
  -- the Rust macro first tests (secs < 0.0), which is true exactly for
  -- negative non-NaN non-zero values (including negative infinity)
  if sign = 1 ∧ ¬ isZero ∧ ¬ isNaN then
    .error "can not convert float seconds to Duration: value is negative"
  else
    let mant := frac + 2 ^ mantBits
    let exp : Int := (biasedExp : Int) - (2 ^ (expBits - 1) - 1)
    if exp < -31 then
      -- represents less than 1ns, can not be rounded to it
      .ok { secs := 0, nanos := 0 }
    else if exp < 0 then
      -- less than one second: nanos = round(10^9 * mant / 2^(mantBits - exp))
      let den := 2 ^ (mantBits + (-exp).toNat)
      let n := roundHalfEven (1000000000 * mant) den
      if n = 1000000000 then .ok { secs := 1, nanos := 0 }
      else .ok { secs := 0, nanos := n }
    else if exp < mantBits then
      let e := exp.toNat
      let secs := mant / 2 ^ (mantBits - e)
      let rem := mant * 2 ^ e % 2 ^ mantBits
      let n := roundHalfEven (1000000000 * rem) (2 ^ mantBits)
      if n = 1000000000 then .ok { secs := secs + 1, nanos := 0 }
      else .ok { secs := secs, nanos := n }
    else if exp < 64 then
      -- no fractional part
      .ok { secs := mant * 2 ^ (exp.toNat - mantBits), nanos := 0 }
    else
      .error "can not convert float seconds to Duration: value is either too big or NaN"

/-- Mirror of Duration::from_secs_f32 on the raw 32-bit pattern. -/
def Duration.from_secs_f32 (bits : Nat) : Except String Duration :=
  durationFromFloatBits 23 8 bits

/-- Mirror of Duration::from_secs_f64 on the raw 64-bit pattern. -/
def Duration.from_secs_f64 (bits : Nat) : Except String Duration :=
  durationFromFloatBits 52 11 bits

/-- Mirror of async_std::io::Cursor over an in-memory byte vector: the
byte store plus the current read position (the position may be set past
the end of the buffer, as Cursor::set_position allows).  The byte store
is the total lookup function of the underlying vector (index to byte,
none past the end); bufOfList builds it from an explicit byte list. -/
structure Cursor where
  buf : Nat → Option Nat
  pos : Nat

/-- Error model for the decoder: the io::Error values it produces are
either the UnexpectedEof of a primitive read hitting the end of the
buffer, or InvalidData with the message chosen at the error site. -/
inductive DecErr where
  | unexpectedEof
  | invalidData (msg : String)
deriving DecidableEq, Repr

/-- Outcome of running a decoding step on a cursor: a value and the
advanced cursor, an io error together with the cursor state at the error
(the Rust cursors are passed by mutable reference, so consumed bytes stay
consumed), or a Rust panic with its message. -/
inductive PRes (α : Type) where
  | ok (val : α) (c : Cursor)
  | err (e : DecErr) (c : Cursor)
  | panicked (msg : String)

/-- Projection of a PRes to its ok payload, when present. -/
def PRes.toOk {α : Type} : PRes α → Option (α × Cursor)
  | .ok v c => some (v, c)
  | _ => none

/-- Projection of a PRes to its ok value alone, when present. -/
def PRes.okVal {α : Type} : PRes α → Option α
  | .ok v _ => some v
  | _ => none

/-- Projection of a PRes to the final cursor position of a successful
decode, when present. -/
def PRes.okPos {α : Type} : PRes α → Option Nat
  | .ok _ c => some c.pos
  | _ => none

/-- Projection of a PRes to its error payload, when present. -/
def PRes.toErr {α : Type} : PRes α → Option DecErr
  | .err e _ => some e
  | _ => none

/-- State-passing decode computations over a cursor. -/
def PM (α : Type) : Type := Cursor → PRes α

instance : Monad PM where
  pure a := fun c => .ok a c
  bind x f := fun c =>
    match x c with
    | .ok a c1 => f a c1
    | .err e c1 => .err e c1
    | .panicked m => .panicked m

theorem PM.bind_apply {α β : Type} (x : PM α) (f : α → PM β) (c : Cursor) :
    (x >>= f) c =
      match x c with
      | .ok a c1 => f a c1
      | .err e c1 => .err e c1
      | .panicked m => .panicked m := rfl

theorem PM.pure_apply {α : Type} (a : α) (c : Cursor) :
    (pure a : PM α) c = .ok a c := rfl

/-- Lift of a pure Result-returning helper (the enum code tables, the size
validators) into a decode step, as the Rust question-mark operator does. -/
def liftR {α : Type} (x : Except DecErr α) : PM α := fun c =>
  match x with
  | .ok a => .ok a c
  | .error e => .err e c

/-- Lift of Duration construction: on the panicking inputs the whole
decode panics. -/
def liftDur (x : Except String Duration) : PM Duration := fun c =>
  match x with
  | .ok d => .ok d c
  | .error m => .panicked m

/-- Byte lookup in the buffer: byteAt n l is the byte at index n of l,
none past the end.  Written with the bare Nat recursor so that it
evaluates in linear time under definitional unfolding; it agrees with
List.get? (see byteAt_eq_get?). -/
def byteAt (n : Nat) : List Nat → Option Nat :=
  Nat.rec (motive := fun _ => List Nat → Option Nat)
    (fun l => match l with | [] => none | b :: _ => some b)
    (fun _ ih l => match l with | [] => none | _ :: t => ih t) n

theorem byteAt_eq_get? : ∀ (n : Nat) (l : List Nat), byteAt n l = l.get? n := by
  intro n
  induction n with
  | zero => intro l; cases l <;> rfl
  | succ k ih => intro l; cases l with
    | nil => rfl
    | cons b t => exact ih t

/-- Byte store of an explicit byte list. -/
def bufOfList (l : List Nat) : Nat → Option Nat := fun i => byteAt i l

/-- Byte store of an all-zero buffer of the given length (the zero-filled
receive buffers of the tests). -/
def zerosBuf (n : Nat) : Nat → Option Nat := fun i => if i < n then some 0 else none

/-- Mirror of read_u8: one byte, advancing the position; UnexpectedEof
when no byte remains at the position. -/
def read_u8 : PM Nat := fun c =>
  match c.buf c.pos with
  | some b => .ok b { c with pos := c.pos + 1 }
  | none => .err .unexpectedEof c

/-- Mirror of read_i8: one byte, interpreted as two's-complement. -/
def read_i8 : PM Int := do
  let b ← read_u8
  pure (if b < 128 then (b : Int) else (b : Int) - 256)

/-- Mirror of read_u16::<LittleEndian>. -/
def read_u16 : PM Nat := do
  let b0 ← read_u8
  let b1 ← read_u8
  pure (b0 + 256 * b1)

/-- Mirror of read_i16::<LittleEndian>. -/
def read_i16 : PM Int := do
  let v ← read_u16
  pure (if v < 32768 then (v : Int) else (v : Int) - 65536)

/-- Mirror of read_u32::<LittleEndian>. -/
def read_u32 : PM Nat := do
  let lo ← read_u16
  let hi ← read_u16
  pure (lo + 65536 * hi)

/-- Mirror of read_u64::<LittleEndian>. -/
def read_u64 : PM Nat := do
  let lo ← read_u32
  let hi ← read_u32
  pure (lo + 4294967296 * hi)

/-- Mirror of read_f32::<LittleEndian>: the raw 32-bit pattern. -/
def read_f32 : PM Nat := read_u32

/-- Mirror of read_f64::<LittleEndian>: the raw 64-bit pattern. -/
def read_f64 : PM Nat := read_u64

/-! ## Header (src/f1_2020/header.rs) -/

/-- Mirror of PacketHeader; session_time is the Duration produced by
Duration::from_secs_f32 from the wire float. -/
structure PacketHeader where
  packet_format : Nat
  major_version : Nat
  minor_version : Nat
  packet_version : Nat
  packet_id : Nat
  session_uid : Nat
  session_time : Duration
  frame_identifier : Nat
  player_car_index : Nat
  secondary_player_car_index : Nat
deriving DecidableEq, Repr

def HEADER_MIN_SIZE : Nat := 24

/-- Mirror of ensure_header_size. -/
def ensure_header_size (size : Nat) : Except DecErr Unit :=
  if size < HEADER_MIN_SIZE then
    .error (.invalidData "Header size is too small")
  else
    .ok ()

/-- Mirror of parse_headers. -/
def parse_headers (size : Nat) : PM PacketHeader := do
  let _ ← liftR (ensure_header_size size)
  let packet_format ← read_u16
  let major_version ← read_u8
  let minor_version ← read_u8
  let packet_version ← read_u8
  let packet_id ← read_u8
  let session_uid ← read_u64
  let session_time_bits ← read_f32
  let session_time ← liftDur (Duration.from_secs_f32 session_time_bits)
  let frame_identifier ← read_u32
  let player_car_index ← read_u8
  let secondary_player_car_index ← read_u8
  pure {
    packet_format := packet_format
    major_version := major_version
    minor_version := minor_version
    packet_version := packet_version
    packet_id := packet_id
    session_uid := session_uid
    session_time := session_time
    frame_identifier := frame_identifier
    player_car_index := player_car_index
    secondary_player_car_index := secondary_player_car_index }

/-! ## Session types and enum tables (src/f1_2020/session.rs) -/

inductive ZoneFlag where
  | Unknown | None | Green | Blue | Yellow | Red
deriving DecidableEq, Repr

inductive SessionType where
  | Unknown | P1 | P2 | P3 | ShortP | Q1 | Q2 | Q3 | ShortQ | OSQ | R | R2 | TimeTrial
deriving DecidableEq, Repr

inductive Weather where
  | Clear | LightCloud | Overcast | LightRain | HeavyRain | Storm
deriving DecidableEq, Repr

inductive Formula where
  | F1Modern | F1Classic | F2 | F1Generic
deriving DecidableEq, Repr

inductive SafetyCar where
  | None | Full | Virtual
deriving DecidableEq, Repr

inductive NetworkGame where
  | Offline | Online
deriving DecidableEq, Repr

inductive Track where
  | Melbourne | PaulRicard | Shanghai | Sakhir | Catalunya | Monaco | Montreal
  | Silverstone | Hockenheim | Hungaroring | Spa | Monza | Singapore | Suzuka
  | AbuDhabi | Texas | Brazil | Austria | Sochi | Mexico | Baku | SakhirShort
  | SilverstoneShort | TexasShort | SuzukaShort | Hanoi | Zandvoort | Unknown
deriving DecidableEq, Repr

/-- Mirror of MarshalZone; zone_start keeps the raw f32 bits. -/
structure MarshalZone where
  zone_start : Nat
  zone_flag : ZoneFlag
deriving DecidableEq, Repr

/-- Mirror of WeatherForecastSample. -/
structure WeatherForecastSample where
  session_type : SessionType
  time_offset : Nat
  weather : Weather
  track_temperature : Int
  air_temperature : Int
deriving DecidableEq, Repr

/-- Mirror of parse_weather. -/
def parse_weather (value : Nat) : Except DecErr Weather :=
  match value with
  | 0 => .ok .Clear
  | 1 => .ok .LightCloud
  | 2 => .ok .Overcast
  | 3 => .ok .LightRain
  | 4 => .ok .HeavyRain
  | 5 => .ok .Storm
  | _ => .error (.invalidData "Invalid weather")

/-- Mirror of parse_session_type.  Note the source maps both 8 and 9 to
ShortQ (its own doc comments declare 9 = OSQ). -/
def parse_session_type (value : Nat) : Except DecErr SessionType :=
  match value with
  | 0 => .ok .Unknown
  | 1 => .ok .P1
  | 2 => .ok .P2
  | 3 => .ok .P3
  | 4 => .ok .ShortP
  | 5 => .ok .Q1
  | 6 => .ok .Q2
  | 7 => .ok .Q3
  | 8 => .ok .ShortQ
  | 9 => .ok .ShortQ
  | 10 => .ok .R
  | 11 => .ok .R2
  | 12 => .ok .TimeTrial
  | _ => .error (.invalidData "Invalid session type")

/-- Mirror of parse_track (input is the i8 track id). -/
def parse_track (value : Int) : Except DecErr Track :=
  if value = -1 then .ok .Unknown
  else if value = 0 then .ok .Melbourne
  else if value = 1 then .ok .PaulRicard
  else if value = 2 then .ok .Shanghai
  else if value = 3 then .ok .Sakhir
  else if value = 4 then .ok .Catalunya
  else if value = 5 then .ok .Monaco
  else if value = 6 then .ok .Montreal
  else if value = 7 then .ok .Silverstone
  else if value = 8 then .ok .Hockenheim
  else if value = 9 then .ok .Hungaroring
  else if value = 10 then .ok .Spa
  else if value = 11 then .ok .Monza
  else if value = 12 then .ok .Singapore
  else if value = 13 then .ok .Suzuka
  else if value = 14 then .ok .AbuDhabi
  else if value = 15 then .ok .Texas
  else if value = 16 then .ok .Brazil
  else if value = 17 then .ok .Austria
  else if value = 18 then .ok .Sochi
  else if value = 19 then .ok .Mexico
  else if value = 20 then .ok .Baku
  else if value = 21 then .ok .SakhirShort
  else if value = 22 then .ok .SilverstoneShort
  else if value = 23 then .ok .TexasShort
  else if value = 24 then .ok .SuzukaShort
  else if value = 25 then .ok .Hanoi
  else if value = 26 then .ok .Zandvoort
  else .error (.invalidData "Invalid track")

/-- Mirror of parse_formula. -/
def parse_formula (value : Nat) : Except DecErr Formula :=
  match value with
  | 0 => .ok .F1Modern
  | 1 => .ok .F1Classic
  | 2 => .ok .F2
  | 3 => .ok .F1Generic
  | _ => .error (.invalidData "Invalid formula type")

/-- Mirror of parse_flag (input is an i8). -/
def parse_flag (value : Int) : Except DecErr ZoneFlag :=
  if value = -1 then .ok .Unknown
  else if value = 0 then .ok .None
  else if value = 1 then .ok .Green
  else if value = 2 then .ok .Blue
  else if value = 3 then .ok .Yellow
  else if value = 4 then .ok .Red
  else .error (.invalidData "Invalid zone flag")

/-- Mirror of parse_marshal_zone. -/
def parse_marshal_zone (zone_start : Nat) (zone_flag : ZoneFlag) : Except DecErr MarshalZone :=
  .ok { zone_start := zone_start, zone_flag := zone_flag }

/-- Mirror of parse_safety_car. -/
def parse_safety_car (value : Nat) : Except DecErr SafetyCar :=
  match value with
  | 0 => .ok .None
  | 1 => .ok .Full
  | 2 => .ok .Virtual
  | _ => .error (.invalidData "Invalid safety car")

/-- Mirror of parse_network_game. -/
def parse_network_game (value : Nat) : Except DecErr NetworkGame :=
  match value with
  | 0 => .ok .Offline
  | 1 => .ok .Online
  | _ => .error (.invalidData "Invalid network game")

/-- Mirror of parse_weather_forecast_sample. -/
def parse_weather_forecast_sample : PM WeatherForecastSample := do
  let st ← read_u8
  let session_type ← liftR (parse_session_type st)
  let time_offset ← read_u8
  let w ← read_u8
  let weather ← liftR (parse_weather w)
  let track_temperature ← read_i8
  let air_temperature ← read_i8
  pure {
    session_type := session_type
    time_offset := time_offset
    weather := weather
    track_temperature := track_temperature
    air_temperature := air_temperature }

/-- Counted decode loop: run the body a fixed number of times, collecting
results in order (the for-loops pushing into a Vec in the source).
Written with the bare Nat recursor so that it evaluates in linear time
under definitional unfolding. -/
def parse_count {α : Type} (p : PM α) (k : Nat) : PM (List α) :=
  Nat.rec (motive := fun _ => PM (List α))
    (pure [])
    (fun _ ih => do
      let a ← p
      let rest ← ih
      pure (a :: rest))
    k

theorem parse_count_zero {α : Type} (p : PM α) : parse_count p 0 = pure [] := rfl

theorem parse_count_succ {α : Type} (p : PM α) (k : Nat) :
    parse_count p (k + 1) = (do
      let a ← p
      let rest ← parse_count p k
      pure (a :: rest)) := rfl

def SESSION_MIN_SIZE : Nat := 251
def MARSHAL_ZONE_MAX : Nat := 21
def WEATHER_FORECAST_SAMPLE_MAX : Nat := 20

/-- Mirror of PacketSessionData. -/
structure PacketSessionData where
  header : PacketHeader
  weather : Weather
  track_temperature : Int
  air_temperature : Int
  total_laps : Nat
  track_length : Nat
  session_type : SessionType
  track_id : Track
  formula : Formula
  session_time_left : Nat
  session_duration : Nat
  pit_speed_limit : Nat
  game_paused : Nat
  is_spectating : Nat
  spectator_car_index : Nat
  sli_pro_native_support : Nat
  num_marshal_zones : Nat
  marshal_zone : List MarshalZone
  safety_car_status : SafetyCar
  network_game : NetworkGame
  num_weather_forecast_samples : Nat
  weather_forecast_sample : List WeatherForecastSample
deriving DecidableEq, Repr

/-- Mirror of ensure_session_size (exact-size policy). -/
def ensure_session_size (size : Nat) : Except DecErr Unit :=
  if size = SESSION_MIN_SIZE then .ok ()
  else .error (.invalidData "Session size is too small")

/-- Body of the marshal-zone loop in parse_session. -/
def parse_marshal_zone_entry : PM MarshalZone := do
  let zone_start ← read_f32
  let zf ← read_i8
  let zone_flag ← liftR (parse_flag zf)
  liftR (parse_marshal_zone zone_start zone_flag)

/-- Mirror of parse_session.  The marshal-zone loop runs the declared
count, the weather-forecast loop always runs the fixed maximum of 20. -/
def parse_session (header : PacketHeader) (size : Nat) : PM PacketSessionData := do
  let _ ← liftR (ensure_session_size size)
  let w ← read_u8
  let weather ← liftR (parse_weather w)
  let track_temperature ← read_i8
  let air_temperature ← read_i8
  let total_laps ← read_u8
  let track_length ← read_u16
  let st ← read_u8
  let session_type ← liftR (parse_session_type st)
  let tid ← read_i8
  let track_id ← liftR (parse_track tid)
  let f ← read_u8
  let formula ← liftR (parse_formula f)
  let session_time_left ← read_u16
  let session_duration ← read_u16
  let pit_speed_limit ← read_u8
  let game_paused ← read_u8
  let is_spectating ← read_u8
  let spectator_car_index ← read_u8
  let sli_pro_native_support ← read_u8
  let num_marshal_zones ← read_u8
  let marshal_zone ← parse_count parse_marshal_zone_entry num_marshal_zones
  let sc ← read_u8
  let safety_car_status ← liftR (parse_safety_car sc)
  let ng ← read_u8
  let network_game ← liftR (parse_network_game ng)
  let num_weather_forecast_samples ← read_u8
  let weather_forecast_sample ←
    parse_count parse_weather_forecast_sample WEATHER_FORECAST_SAMPLE_MAX
  pure {
    header := header
    weather := weather
    track_temperature := track_temperature
    air_temperature := air_temperature
    total_laps := total_laps
    track_length := track_length
    session_type := session_type
    track_id := track_id
    formula := formula
    session_time_left := session_time_left
    session_duration := session_duration
    pit_speed_limit := pit_speed_limit
    game_paused := game_paused
    is_spectating := is_spectating
    spectator_car_index := spectator_car_index
    sli_pro_native_support := sli_pro_native_support
    num_marshal_zones := num_marshal_zones
    marshal_zone := marshal_zone
    safety_car_status := safety_car_status
    network_game := network_game
    num_weather_forecast_samples := num_weather_forecast_samples
    weather_forecast_sample := weather_forecast_sample }

/-! ## Lap (src/f1_2020/lap.rs) -/

def TOTAL_CARS : Nat := 22
def LAP_DATA_MIN_SIZE : Nat := 1190

inductive PitStatus where
  | None | Pitting | PitArea
deriving DecidableEq, Repr

inductive DriverStatus where
  | Garage | FlyingLap | InLap | OutLap | OnTrack
deriving DecidableEq, Repr

inductive ResultStatus where
  | Invalid | Inactive | Active | Finished | Disqualified | NotClassified | Retired
deriving DecidableEq, Repr

/-- Mirror of LapData; seconds-sourced fields and millisecond-sourced
fields are all Durations, as in the source; raw floats keep their bits. -/
structure LapData where
  last_lap_time : Duration
  current_lap_time : Duration
  sector_1_time : Duration
  sector_2_time : Duration
  best_lap_time : Duration
  best_lap_num : Nat
  best_lap_sector_1_time : Duration
  best_lap_sector_2_time : Duration
  best_lap_sector_3_time : Duration
  best_overall_sector_1_time : Duration
  best_overall_sector_1_lap_num : Nat
  best_overall_sector_2_time : Duration
  best_overall_sector_2_lap_num : Nat
  best_overall_sector_3_time : Duration
  best_overall_sector_3_lap_num : Nat
  lap_distance : Nat
  total_distance : Nat
  safety_car_delta : Duration
  car_position : Nat
  current_lap_num : Nat
  pit_status : PitStatus
  sector : Nat
  current_lap_invalid : Bool
  penalties : Nat
  grid_position : Nat
  driver_status : DriverStatus
  result_status : ResultStatus
deriving DecidableEq, Repr

structure PacketLapData where
  header : PacketHeader
  lap_data : List LapData
deriving DecidableEq, Repr

/-- Mirror of parse_pit_status. -/
def parse_pit_status : PM PitStatus := do
  let v ← read_u8
  match v with
  | 0 => pure .None
  | 1 => pure .Pitting
  | 2 => pure .PitArea
  | _ => liftR (.error (.invalidData "Invalid pit status"))

/-- Mirror of parse_driver_status. -/
def parse_driver_status : PM DriverStatus := do
  let v ← read_u8
  match v with
  | 0 => pure .Garage
  | 1 => pure .FlyingLap
  | 2 => pure .InLap
  | 3 => pure .OutLap
  | 4 => pure .OnTrack
  | _ => liftR (.error (.invalidData "Invalid driver status"))

/-- Mirror of parse_result_status. -/
def parse_result_status : PM ResultStatus := do
  let v ← read_u8
  match v with
  | 0 => pure .Invalid
  | 1 => pure .Inactive
  | 2 => pure .Active
  | 3 => pure .Finished
  | 4 => pure .Disqualified
  | 5 => pure .NotClassified
  | 6 => pure .Retired
  | _ => liftR (.error (.invalidData "Invalid result status"))

/-- Mirror of parse_lap: one 53-byte per-car lap record.  Seconds-valued
floats go through Duration::from_secs_f32 (panicking inputs panic),
millisecond u16 fields through Duration::from_millis. -/
def parse_lap : PM LapData := do
  let llt ← read_f32
  let last_lap_time ← liftDur (Duration.from_secs_f32 llt)
  let clt ← read_f32
  let current_lap_time ← liftDur (Duration.from_secs_f32 clt)
  let s1 ← read_u16
  let sector_1_time := Duration.from_millis s1
  let s2 ← read_u16
  let sector_2_time := Duration.from_millis s2
  let blt ← read_f32
  let best_lap_time ← liftDur (Duration.from_secs_f32 blt)
  let best_lap_num ← read_u8
  let bls1 ← read_u16
  let best_lap_sector_1_time := Duration.from_millis bls1
  let bls2 ← read_u16
  let best_lap_sector_2_time := Duration.from_millis bls2
  let bls3 ← read_u16
  let best_lap_sector_3_time := Duration.from_millis bls3
  let bos1 ← read_u16
  let best_overall_sector_1_time := Duration.from_millis bos1
  let best_overall_sector_1_lap_num ← read_u8
  let bos2 ← read_u16
  let best_overall_sector_2_time := Duration.from_millis bos2
  let best_overall_sector_2_lap_num ← read_u8
  let bos3 ← read_u16
  let best_overall_sector_3_time := Duration.from_millis bos3
  let best_overall_sector_3_lap_num ← read_u8
  let lap_distance ← read_f32
  let total_distance ← read_f32
  let scd ← read_f32
  let safety_car_delta ← liftDur (Duration.from_secs_f32 scd)
  let car_position ← read_u8
  let current_lap_num ← read_u8
  let pit_status ← parse_pit_status
  let sector ← read_u8
  let cli ← read_u8
  let current_lap_invalid := cli = 1
  let penalties ← read_u8
  let grid_position ← read_u8
  let driver_status ← parse_driver_status
  let result_status ← parse_result_status
  pure {
    last_lap_time := last_lap_time
    current_lap_time := current_lap_time
    sector_1_time := sector_1_time
    sector_2_time := sector_2_time
    best_lap_time := best_lap_time
    best_lap_num := best_lap_num
    best_lap_sector_1_time := best_lap_sector_1_time
    best_lap_sector_2_time := best_lap_sector_2_time
    best_lap_sector_3_time := best_lap_sector_3_time
    best_overall_sector_1_time := best_overall_sector_1_time
    best_overall_sector_1_lap_num := best_overall_sector_1_lap_num
    best_overall_sector_2_time := best_overall_sector_2_time
    best_overall_sector_2_lap_num := best_overall_sector_2_lap_num
    best_overall_sector_3_time := best_overall_sector_3_time
    best_overall_sector_3_lap_num := best_overall_sector_3_lap_num
    lap_distance := lap_distance
    total_distance := total_distance
    safety_car_delta := safety_car_delta
    car_position := car_position
    current_lap_num := current_lap_num
    pit_status := pit_status
    sector := sector
    current_lap_invalid := current_lap_invalid
    penalties := penalties
    grid_position := grid_position
    driver_status := driver_status
    result_status := result_status }

/-- Mirror of ensure_lap_data_size (minimum-size policy). -/
def ensure_lap_data_size (size : Nat) : Except DecErr Unit :=
  if size < LAP_DATA_MIN_SIZE then .error (.invalidData "Lap data size is too small")
  else .ok ()

/-- Mirror of parse_lap_data. -/
def parse_lap_data (header : PacketHeader) (size : Nat) : PM PacketLapData := do
  let _ ← liftR (ensure_lap_data_size size)
  let laps ← parse_count parse_lap TOTAL_CARS
  pure { header := header, lap_data := laps }

/-! ## Event (src/f1_2020/event.rs) -/

def EVENT_MIN_SIZE : Nat := 35

structure FastestLap where
  vehicle_index : Nat
  lap_time : Duration
deriving DecidableEq, Repr

structure Retirement where
  vehicle_index : Nat
deriving DecidableEq, Repr

structure TeamMateInPits where
  vehicle_index : Nat
deriving DecidableEq, Repr

structure RaceWinner where
  vehicle_index : Nat
deriving DecidableEq, Repr

inductive PenaltyType where
  | DriveThrough | StopGo | GridPenalty | PenaltyReminder | TimePenalty | Warning
  | Disqualified | RemovedFromFormationLap | ParkedTooLongTimer | TyreRegulations
  | ThisLapInvalidated | ThisAndNextLapInvalidated | ThisLapInvalidatedWithoutReason
  | ThisAndNextLapInvalidatedWithoutReason | ThisAndPreviousLapInvalidated
  | ThisAndPreviousLapInvalidatedWithoutReason | Retired | BlackFlagTimer
deriving DecidableEq, Repr

inductive InfringementType where
  | BlockingBySlowDriving | BlockingByWrongWayDriving | ReversingOffTheStartLine
  | BigCollision | SmallCollision | CollisionFailedToHandBackPositionSingle
  | CollisionFailedToHandBackPositionMultiple | CornerCuttingGainedTime
  | CornerCuttingOvertakeSingle | CornerCuttingOvertakeMultiple | CrossedPitExitLane
  | IgnoringBlueFlags | IgnoringYellowFlags | IgnoringDriveThrough | TooManyDriveThroughs
  | DriveThroughReminderServeWithinNLaps | DriveThroughReminderServeThisLap
  | PitLaneSpeeding | ParkedForTooLong | IgnoringTyreRegulations | TooManyPenalties
  | MultipleWarnings | ApproachingDisqualification | TyreRegulationsSelectSingle
  | TyreRegulationsSelectMultiple | LapInvalidatedCornerCutting | LapInvalidatedRunningWide
  | CornerCuttingRanWideGainedTimeMinor | CornerCuttingRanWideGainedTimeSignificant
  | CornerCuttingRanWideGainedTimeExtreme | LapInvalidatedWallRiding
  | LapInvalidatedFlashbackUsed | LapInvalidatedResetToTrack | BlockingThePitlane
  | JumpStart | SafetyCarToCarCollision | SafetyCarIllegalOvertake
  | SafetyCarExceedingAllowedPace | VirtualSafetyCarExceedingAllowedPace
  | FormationLapBelowAllowedSpeed | RetiredMechanicalFailure | RetiredTerminallyDamaged
  | SafetyCarFallingTooFarBack | BlackFlagTimer | UnservedStopGoPenalty
  | UnservedDriveThroughPenalty | EngineComponentChange | GearboxChange
  | LeagueGridPenalty | RetryPenalty | IllegalTimeGain | MandatoryPitstop
deriving DecidableEq, Repr

structure Penalty where
  penalty_type : PenaltyType
  infringement_type : InfringementType
  vehicle_index : Nat
  other_vehicle_index : Nat
  time : Duration
  lap_num : Nat
  places_gained : Nat
deriving DecidableEq, Repr

/-- Mirror of SpeedTrap; speed keeps the raw f32 bits. -/
structure SpeedTrap where
  vehicle_index : Nat
  speed : Nat
deriving DecidableEq, Repr

inductive Event where
  | SessionStarted
  | SessionEnded
  | FastestLap (fl : FastestLap)
  | Retirement (r : Retirement)
  | DRSEnabled
  | DRSDisabled
  | TeamMateInPits (t : TeamMateInPits)
  | ChequeredFlag
  | RaceWinner (r : RaceWinner)
  | Penalty (p : Penalty)
  | SpeedTrap (s : SpeedTrap)
deriving DecidableEq, Repr

structure PacketEventData where
  header : PacketHeader
  event : Event
deriving DecidableEq, Repr

/-- Mirror of parse_penalty_type. -/
def parse_penalty_type (value : Nat) : Except DecErr PenaltyType :=
  match value with
  | 0 => .ok .DriveThrough
  | 1 => .ok .StopGo
  | 2 => .ok .GridPenalty
  | 3 => .ok .PenaltyReminder
  | 4 => .ok .TimePenalty
  | 5 => .ok .Warning
  | 6 => .ok .Disqualified
  | 7 => .ok .RemovedFromFormationLap
  | 8 => .ok .ParkedTooLongTimer
  | 9 => .ok .TyreRegulations
  | 10 => .ok .ThisLapInvalidated
  | 11 => .ok .ThisAndNextLapInvalidated
  | 12 => .ok .ThisLapInvalidatedWithoutReason
  | 13 => .ok .ThisAndNextLapInvalidatedWithoutReason
  | 14 => .ok .ThisAndPreviousLapInvalidated
  | 15 => .ok .ThisAndPreviousLapInvalidatedWithoutReason
  | 16 => .ok .Retired
  | 17 => .ok .BlackFlagTimer
  | _ => .error (.invalidData "Invalid penalty type")

/-- Mirror of parse_infringement_type. -/
def parse_infringement_type (value : Nat) : Except DecErr InfringementType :=
  match value with
  | 0 => .ok .BlockingBySlowDriving
  | 1 => .ok .BlockingByWrongWayDriving
  | 2 => .ok .ReversingOffTheStartLine
  | 3 => .ok .BigCollision
  | 4 => .ok .SmallCollision
  | 5 => .ok .CollisionFailedToHandBackPositionSingle
  | 6 => .ok .CollisionFailedToHandBackPositionMultiple
  | 7 => .ok .CornerCuttingGainedTime
  | 8 => .ok .CornerCuttingOvertakeSingle
  | 9 => .ok .CornerCuttingOvertakeMultiple
  | 10 => .ok .CrossedPitExitLane
  | 11 => .ok .IgnoringBlueFlags
  | 12 => .ok .IgnoringYellowFlags
  | 13 => .ok .IgnoringDriveThrough
  | 14 => .ok .TooManyDriveThroughs
  | 15 => .ok .DriveThroughReminderServeWithinNLaps
  | 16 => .ok .DriveThroughReminderServeThisLap
  | 17 => .ok .PitLaneSpeeding
  | 18 => .ok .ParkedForTooLong
  | 19 => .ok .IgnoringTyreRegulations
  | 20 => .ok .TooManyPenalties
  | 21 => .ok .MultipleWarnings
  | 22 => .ok .ApproachingDisqualification
  | 23 => .ok .TyreRegulationsSelectSingle
  | 24 => .ok .TyreRegulationsSelectMultiple
  | 25 => .ok .LapInvalidatedCornerCutting
  | 26 => .ok .LapInvalidatedRunningWide
  | 27 => .ok .CornerCuttingRanWideGainedTimeMinor
  | 28 => .ok .CornerCuttingRanWideGainedTimeSignificant
  | 29 => .ok .CornerCuttingRanWideGainedTimeExtreme
  | 30 => .ok .LapInvalidatedWallRiding
  | 31 => .ok .LapInvalidatedFlashbackUsed
  | 32 => .ok .LapInvalidatedResetToTrack
  | 33 => .ok .BlockingThePitlane
  | 34 => .ok .JumpStart
  | 35 => .ok .SafetyCarToCarCollision
  | 36 => .ok .SafetyCarIllegalOvertake
  | 37 => .ok .SafetyCarExceedingAllowedPace
  | 38 => .ok .VirtualSafetyCarExceedingAllowedPace
  | 39 => .ok .FormationLapBelowAllowedSpeed
  | 40 => .ok .RetiredMechanicalFailure
  | 41 => .ok .RetiredTerminallyDamaged
  | 42 => .ok .SafetyCarFallingTooFarBack
  | 43 => .ok .BlackFlagTimer
  | 44 => .ok .UnservedStopGoPenalty
  | 45 => .ok .UnservedDriveThroughPenalty
  | 46 => .ok .EngineComponentChange
  | 47 => .ok .GearboxChange
  | 48 => .ok .LeagueGridPenalty
  | 49 => .ok .RetryPenalty
  | 50 => .ok .IllegalTimeGain
  | 51 => .ok .MandatoryPitstop
  | _ => .error (.invalidData "Invalid infringement type")

/-- Mirror of ensure_event_size (exact-size policy). -/
def ensure_event_size (size : Nat) : Except DecErr Unit :=
  if size = EVENT_MIN_SIZE then .ok ()
  else .error (.invalidData "Event size is too small")

/-- Mirror of parse_event: four bytes are read as characters and collected
into the event-code string, which selects the sub-variant. -/
def parse_event : PM Event := do
  let e0 ← read_u8
  let e1 ← read_u8
  let e2 ← read_u8
  let e3 ← read_u8
  let event_code := String.mk [Char.ofNat e0, Char.ofNat e1, Char.ofNat e2, Char.ofNat e3]
  if event_code = "SSTA" then pure .SessionStarted
  else if event_code = "SEND" then pure .SessionEnded
  else if event_code = "FTLP" then do
    let vehicle_index ← read_u8
    let lt ← read_f32
    let lap_time ← liftDur (Duration.from_secs_f32 lt)
    pure (.FastestLap { vehicle_index := vehicle_index, lap_time := lap_time })
  else if event_code = "RTMT" then do
    let vehicle_index ← read_u8
    pure (.Retirement { vehicle_index := vehicle_index })
  else if event_code = "DRSE" then pure .DRSEnabled
  else if event_code = "DRSD" then pure .DRSDisabled
  else if event_code = "TMPT" then do
    let vehicle_index ← read_u8
    pure (.TeamMateInPits { vehicle_index := vehicle_index })
  else if event_code = "CHQF" then pure .ChequeredFlag
  else if event_code = "RCWN" then do
    let vehicle_index ← read_u8
    pure (.RaceWinner { vehicle_index := vehicle_index })
  else if event_code = "PENA" then do
    let pt ← read_u8
    let penalty_type ← liftR (parse_penalty_type pt)
    let it ← read_u8
    let infringement_type ← liftR (parse_infringement_type it)
    let vehicle_index ← read_u8
    let other_vehicle_index ← read_u8
    let t ← read_u8
    let time := Duration.from_secs t
    let lap_num ← read_u8
    let places_gained ← read_u8
    pure (.Penalty {
      penalty_type := penalty_type
      infringement_type := infringement_type
      vehicle_index := vehicle_index
      other_vehicle_index := other_vehicle_index
      time := time
      lap_num := lap_num
      places_gained := places_gained })
  else if event_code = "SPTP" then do
    let vehicle_index ← read_u8
    let speed ← read_f32
    pure (.SpeedTrap { vehicle_index := vehicle_index, speed := speed })
  else liftR (.error (.invalidData "Invalid event code"))

/-- Mirror of parse_event_data. -/
def parse_event_data (header : PacketHeader) (size : Nat) : PM PacketEventData := do
  let _ ← liftR (ensure_event_size size)
  let event ← parse_event
  pure { header := header, event := event }

/-! ## Motion (src/f1_2020/motion.rs) -/

def MOTION_MIN_SIZE : Nat := 1464

/-- Mirror of the generic per-wheel quad. -/
structure Wheel (α : Type) where
  rear_left : α
  rear_right : α
  front_left : α
  front_right : α
deriving DecidableEq, Repr

/-- Mirror of CarMotionData; floats keep their raw 32 bits. -/
structure CarMotionData where
  world_position_x : Nat
  world_position_y : Nat
  world_position_z : Nat
  world_velocity_x : Nat
  world_velocity_y : Nat
  world_velocity_z : Nat
  world_forward_dir_x : Int
  world_forward_dir_y : Int
  world_forward_dir_z : Int
  world_right_dir_x : Int
  world_right_dir_y : Int
  world_right_dir_z : Int
  g_force_lateral : Nat
  g_force_longitudinal : Nat
  g_force_vertical : Nat
  yaw : Nat
  pitch : Nat
  roll : Nat
deriving DecidableEq, Repr

structure PacketMotionData where
  header : PacketHeader
  motion_data : List CarMotionData
  suspension_position : Wheel Nat
  suspension_velocity : Wheel Nat
  suspension_acceleration : Wheel Nat
  wheel_speed : Wheel Nat
  wheel_slip : Wheel Nat
  local_velocity_x : Nat
  local_velocity_y : Nat
  local_velocity_z : Nat
  angular_velocity_x : Nat
  angular_velocity_y : Nat
  angular_velocity_z : Nat
  angular_acceleration_x : Nat
  angular_acceleration_y : Nat
  angular_acceleration_z : Nat
  front_wheels_angle : Nat
deriving DecidableEq, Repr

/-- Wheel quad of f32 reads in rear-left, rear-right, front-left,
front-right order, as every Wheel literal in the source. -/
def read_wheel_f32 : PM (Wheel Nat) := do
  let rear_left ← read_f32
  let rear_right ← read_f32
  let front_left ← read_f32
  let front_right ← read_f32
  pure { rear_left := rear_left, rear_right := rear_right,
         front_left := front_left, front_right := front_right }

/-- Wheel quad of u8 reads. -/
def read_wheel_u8 : PM (Wheel Nat) := do
  let rear_left ← read_u8
  let rear_right ← read_u8
  let front_left ← read_u8
  let front_right ← read_u8
  pure { rear_left := rear_left, rear_right := rear_right,
         front_left := front_left, front_right := front_right }

/-- Wheel quad of u16 reads. -/
def read_wheel_u16 : PM (Wheel Nat) := do
  let rear_left ← read_u16
  let rear_right ← read_u16
  let front_left ← read_u16
  let front_right ← read_u16
  pure { rear_left := rear_left, rear_right := rear_right,
         front_left := front_left, front_right := front_right }

/-- Mirror of parse_car_motion. -/
def parse_car_motion : PM CarMotionData := do
  let world_position_x ← read_f32
  let world_position_y ← read_f32
  let world_position_z ← read_f32
  let world_velocity_x ← read_f32
  let world_velocity_y ← read_f32
  let world_velocity_z ← read_f32
  let world_forward_dir_x ← read_i16
  let world_forward_dir_y ← read_i16
  let world_forward_dir_z ← read_i16
  let world_right_dir_x ← read_i16
  let world_right_dir_y ← read_i16
  let world_right_dir_z ← read_i16
  let g_force_lateral ← read_f32
  let g_force_longitudinal ← read_f32
  let g_force_vertical ← read_f32
  let yaw ← read_f32
  let pitch ← read_f32
  let roll ← read_f32
  pure {
    world_position_x := world_position_x
    world_position_y := world_position_y
    world_position_z := world_position_z
    world_velocity_x := world_velocity_x
    world_velocity_y := world_velocity_y
    world_velocity_z := world_velocity_z
    world_forward_dir_x := world_forward_dir_x
    world_forward_dir_y := world_forward_dir_y
    world_forward_dir_z := world_forward_dir_z
    world_right_dir_x := world_right_dir_x
    world_right_dir_y := world_right_dir_y
    world_right_dir_z := world_right_dir_z
    g_force_lateral := g_force_lateral
    g_force_longitudinal := g_force_longitudinal
    g_force_vertical := g_force_vertical
    yaw := yaw
    pitch := pitch
    roll := roll }

/-- Mirror of ensure_motion_size (minimum-size policy). -/
def ensure_motion_size (size : Nat) : Except DecErr Unit :=
  if size < MOTION_MIN_SIZE then .error (.invalidData "Motion size is too small")
  else .ok ()

/-- Mirror of parse_motion_data. -/
def parse_motion_data (header : PacketHeader) (size : Nat) : PM PacketMotionData := do
  let _ ← liftR (ensure_motion_size size)
  let car_motion_data ← parse_count parse_car_motion TOTAL_CARS
  let suspension_position ← read_wheel_f32
  let suspension_velocity ← read_wheel_f32
  let suspension_acceleration ← read_wheel_f32
  let wheel_speed ← read_wheel_f32
  let wheel_slip ← read_wheel_f32
  let local_velocity_x ← read_f32
  let local_velocity_y ← read_f32
  let local_velocity_z ← read_f32
  let angular_velocity_x ← read_f32
  let angular_velocity_y ← read_f32
  let angular_velocity_z ← read_f32
  let angular_acceleration_x ← read_f32
  let angular_acceleration_y ← read_f32
  let angular_acceleration_z ← read_f32
  let front_wheels_angle ← read_f32
  pure {
    header := header
    motion_data := car_motion_data
    suspension_position := suspension_position
    suspension_velocity := suspension_velocity
    suspension_acceleration := suspension_acceleration
    wheel_speed := wheel_speed
    wheel_slip := wheel_slip
    local_velocity_x := local_velocity_x
    local_velocity_y := local_velocity_y
    local_velocity_z := local_velocity_z
    angular_velocity_x := angular_velocity_x
    angular_velocity_y := angular_velocity_y
    angular_velocity_z := angular_velocity_z
    angular_acceleration_x := angular_acceleration_x
    angular_acceleration_y := angular_acceleration_y
    angular_acceleration_z := angular_acceleration_z
    front_wheels_angle := front_wheels_angle }

/-! ## Car data types (src/f1_2020/car.rs) -/

def CAR_SETUP_MIN_SIZE : Nat := 1102
def CAR_STATUS_MIN_SIZE : Nat := 1344
def CAR_TELEMETRY_MIN_SIZE : Nat := 1307

/-- Mirror of TyrePressure; left and right keep raw f32 bits. -/
structure TyrePressure where
  left : Nat
  right : Nat
deriving DecidableEq, Repr

structure CarSetupData where
  front_wing : Nat
  rear_wing : Nat
  on_throttle : Nat
  off_throttle : Nat
  front_camber : Nat
  rear_camber : Nat
  front_toe : Nat
  rear_toe : Nat
  front_suspension : Nat
  rear_suspension : Nat
  front_anti_roll_bar : Nat
  rear_anti_roll_bar : Nat
  front_suspension_height : Nat
  rear_suspension_height : Nat
  brake_pressure : Nat
  brake_bias : Nat
  rear_tyre_pressure : TyrePressure
  front_tyre_pressure : TyrePressure
  ballast : Nat
  fuel_load : Nat
deriving DecidableEq, Repr

structure PacketCarSetupData where
  header : PacketHeader
  car_setup_data : List CarSetupData
deriving DecidableEq, Repr

inductive SurfaceType where
  | Tarmac | RumbleStrip | Concrete | Rock | Gravel | Mud | Sand | Grass
  | Water | Cobblestone | Metal | Ridged | Unknown
deriving DecidableEq, Repr

inductive MFDPanel where
  | CarSetup | Pits | Damage | Engine | Temperatures | Closed
deriving DecidableEq, Repr

structure CarTelemetryData where
  speed : Nat
  throttle : Nat
  steer : Nat
  brake : Nat
  clutch : Nat
  gear : Int
  engine_rpm : Nat
  drs : Bool
  rev_lights_percent : Nat
  brakes_temperature : Wheel Nat
  tyres_surface_temperature : Wheel Nat
  tyres_inner_temperature : Wheel Nat
  engine_temperature : Nat
  tyre_pressures : Wheel Nat
  surface_types : Wheel SurfaceType
deriving DecidableEq, Repr

structure PacketCarTelemetryData where
  header : PacketHeader
  car_telemetry_data : List CarTelemetryData
  button_status : Nat
  mfd_panel_index : MFDPanel
  mfd_panel_index_secondary_player : MFDPanel
  suggested_gear : Int
deriving DecidableEq, Repr

inductive TractionControl where
  | Off | Low | High
deriving DecidableEq, Repr

inductive AntiLockBrakes where
  | Off | On
deriving DecidableEq, Repr

/-- Mirror of FuelMix; the lean-mixture variant is spelt LeanMix here. -/
inductive FuelMix where
  | LeanMix | Standard | Rich | Max
deriving DecidableEq, Repr

inductive DRSStatus where
  | NotAllowed | Allowed | Unknown
deriving DecidableEq, Repr

/-- Mirror of the ERSDeploymentMode enum declaration, which lists six
variants with explicit discriminants None=0, Low=1, Medium=2, High=3,
Overtake=4, Hotlap=5. -/
inductive ERSDeploymentMode where
  | None | Low | Medium | High | Overtake | Hotlap
deriving DecidableEq, Repr

/-- Discriminant values declared on the ERSDeploymentMode enum in the
source. -/
def ERSDeploymentMode.discriminant : ERSDeploymentMode → Nat
  | .None => 0
  | .Low => 1
  | .Medium => 2
  | .High => 3
  | .Overtake => 4
  | .Hotlap => 5

inductive ActualTyreCompound where
  | C5 | C4 | C3 | C2 | C1 | Inter | Wet | F1ClassicDry | F1ClassicWet
  | F2SuperSoft | F2Soft | F2Medium | F2Hard | F2Wet | Unknown
deriving DecidableEq, Repr

inductive VisualTyreCompound where
  | Soft | Medium | Hard | Inter | Wet | F1ClassicDry | F1ClassicWet
  | F2SuperSoft | F2Soft | F2Medium | F2Hard | F2Wet | Unknown
deriving DecidableEq, Repr

structure CarStatusData where
  traction_control : TractionControl
  anti_lock_brakes : AntiLockBrakes
  fuel_mix : FuelMix
  front_brake_bias : Nat
  pit_limiter : Bool
  fuel_in_tank : Nat
  fuel_capacity : Nat
  fuel_remaining_laps : Nat
  max_rpm : Nat
  idle_rpm : Nat
  max_gears : Nat
  drs_allowed : DRSStatus
  drs_activation_distance : Nat
  tyres_wear : Wheel Nat
  actual_tyre_compound : ActualTyreCompound
  visual_tyre_compound : VisualTyreCompound
  tyres_age_laps : Nat
  tyres_damage : Wheel Nat
  front_left_wing_damage : Nat
  front_right_wing_damage : Nat
  rear_wing_damage : Nat
  drs_fault : Bool
  engine_damage : Nat
  gear_box_damage : Nat
  vehicle_fia_flags : ZoneFlag
  ers_store_energy : Nat
  ers_deploy_mode : ERSDeploymentMode
  ers_harvested_this_lap_mguk : Nat
  ers_harvested_this_lap_mguh : Nat
  ers_deployed_this_lap : Nat
deriving DecidableEq, Repr

structure PacketCarStatusData where
  header : PacketHeader
  car_status_data : List CarStatusData
deriving DecidableEq, Repr

/-! ## Car-setup decoder (src/f1_2020/car_setup.rs) -/

/-- Mirror of parse_car_setup. -/
def parse_car_setup : PM CarSetupData := do
  let front_wing ← read_u8
  let rear_wing ← read_u8
  let on_throttle ← read_u8
  let off_throttle ← read_u8
  let front_camber ← read_f32
  let rear_camber ← read_f32
  let front_toe ← read_f32
  let rear_toe ← read_f32
  let front_suspension ← read_u8
  let rear_suspension ← read_u8
  let front_anti_roll_bar ← read_u8
  let rear_anti_roll_bar ← read_u8
  let front_suspension_height ← read_u8
  let rear_suspension_height ← read_u8
  let brake_pressure ← read_u8
  let brake_bias ← read_u8
  let rtp_left ← read_f32
  let rtp_right ← read_f32
  let ftp_left ← read_f32
  let ftp_right ← read_f32
  let ballast ← read_u8
  let fuel_load ← read_f32
  pure {
    front_wing := front_wing
    rear_wing := rear_wing
    on_throttle := on_throttle
    off_throttle := off_throttle
    front_camber := front_camber
    rear_camber := rear_camber
    front_toe := front_toe
    rear_toe := rear_toe
    front_suspension := front_suspension
    rear_suspension := rear_suspension
    front_anti_roll_bar := front_anti_roll_bar
    rear_anti_roll_bar := rear_anti_roll_bar
    front_suspension_height := front_suspension_height
    rear_suspension_height := rear_suspension_height
    brake_pressure := brake_pressure
    brake_bias := brake_bias
    rear_tyre_pressure := { left := rtp_left, right := rtp_right }
    front_tyre_pressure := { left := ftp_left, right := ftp_right }
    ballast := ballast
    fuel_load := fuel_load }

/-- Mirror of ensure_car_setup_size (exact-size policy). -/
def ensure_car_setup_size (size : Nat) : Except DecErr Unit :=
  if size = CAR_SETUP_MIN_SIZE then .ok ()
  else .error (.invalidData "Car setup size is too small")

/-- Mirror of parse_car_setup_data. -/
def parse_car_setup_data (header : PacketHeader) (size : Nat) : PM PacketCarSetupData := do
  let _ ← liftR (ensure_car_setup_size size)
  let car_setup_data ← parse_count parse_car_setup TOTAL_CARS
  pure { header := header, car_setup_data := car_setup_data }

/-! ## Car-telemetry decoder (src/f1_2020/car_telemetry.rs) -/

/-- Mirror of parse_surface_type. -/
def parse_surface_type (value : Nat) : Except DecErr SurfaceType :=
  match value with
  | 0 => .ok .Tarmac
  | 1 => .ok .RumbleStrip
  | 2 => .ok .Concrete
  | 3 => .ok .Rock
  | 4 => .ok .Gravel
  | 5 => .ok .Mud
  | 6 => .ok .Sand
  | 7 => .ok .Grass
  | 8 => .ok .Water
  | 9 => .ok .Cobblestone
  | 10 => .ok .Metal
  | 11 => .ok .Ridged
  | 12 => .ok .Unknown
  | _ => .error (.invalidData "Surface type invalid")

/-- Mirror of parse_mfd_panel. -/
def parse_mfd_panel (value : Nat) : Except DecErr MFDPanel :=
  match value with
  | 0 => .ok .CarSetup
  | 1 => .ok .Pits
  | 2 => .ok .Damage
  | 3 => .ok .Engine
  | 4 => .ok .Temperatures
  | 255 => .ok .Closed
  | _ => .error (.invalidData "MFD panel index invalid")

/-- Mirror of parse_car_telemetry. -/
def parse_car_telemetry : PM CarTelemetryData := do
  let speed ← read_u16
  let throttle ← read_f32
  let steer ← read_f32
  let brake ← read_f32
  let clutch ← read_u8
  let gear ← read_i8
  let engine_rpm ← read_u16
  let d ← read_u8
  let drs := d = 1
  let rev_lights_percent ← read_u8
  let brakes_temperature ← read_wheel_u16
  let tyres_surface_temperature ← read_wheel_u8
  let tyres_inner_temperature ← read_wheel_u8
  let engine_temperature ← read_u16
  let tyre_pressures ← read_wheel_f32
  let st_rl ← read_u8
  let surface_rl ← liftR (parse_surface_type st_rl)
  let st_rr ← read_u8
  let surface_rr ← liftR (parse_surface_type st_rr)
  let st_fl ← read_u8
  let surface_fl ← liftR (parse_surface_type st_fl)
  let st_fr ← read_u8
  let surface_fr ← liftR (parse_surface_type st_fr)
  pure {
    speed := speed
    throttle := throttle
    steer := steer
    brake := brake
    clutch := clutch
    gear := gear
    engine_rpm := engine_rpm
    drs := drs
    rev_lights_percent := rev_lights_percent
    brakes_temperature := brakes_temperature
    tyres_surface_temperature := tyres_surface_temperature
    tyres_inner_temperature := tyres_inner_temperature
    engine_temperature := engine_temperature
    tyre_pressures := tyre_pressures
    surface_types := { rear_left := surface_rl, rear_right := surface_rr,
                       front_left := surface_fl, front_right := surface_fr } }

/-- Mirror of ensure_car_telemetry_size (exact-size policy). -/
def ensure_car_telemetry_size (size : Nat) : Except DecErr Unit :=
  if size = CAR_TELEMETRY_MIN_SIZE then .ok ()
  else .error (.invalidData "Car telemetry size is too small")

/-- Mirror of parse_car_telemetry_data. -/
def parse_car_telemetry_data (header : PacketHeader) (size : Nat) :
    PM PacketCarTelemetryData := do
  let _ ← liftR (ensure_car_telemetry_size size)
  let car_telemetry_data ← parse_count parse_car_telemetry TOTAL_CARS
  let button_status ← read_u32
  let m1 ← read_u8
  let mfd_panel_index ← liftR (parse_mfd_panel m1)
  let m2 ← read_u8
  let mfd_panel_index_secondary_player ← liftR (parse_mfd_panel m2)
  let suggested_gear ← read_i8
  pure {
    header := header
    car_telemetry_data := car_telemetry_data
    button_status := button_status
    mfd_panel_index := mfd_panel_index
    mfd_panel_index_secondary_player := mfd_panel_index_secondary_player
    suggested_gear := suggested_gear }

/-! ## Car-status decoder (src/f1_2020/car_status.rs) -/

/-- Mirror of parse_traction_control. -/
def parse_traction_control (value : Nat) : Except DecErr TractionControl :=
  match value with
  | 0 => .ok .Off
  | 1 => .ok .Low
  | 2 => .ok .High
  | _ => .error (.invalidData "Traction control invalid")

/-- Mirror of parse_fuel_mix. -/
def parse_fuel_mix (value : Nat) : Except DecErr FuelMix :=
  match value with
  | 0 => .ok .LeanMix
  | 1 => .ok .Standard
  | 2 => .ok .Rich
  | 3 => .ok .Max
  | _ => .error (.invalidData "Fuel mix invalid")

/-- Mirror of parse_drs (input is an i8). -/
def parse_drs (value : Int) : Except DecErr DRSStatus :=
  if value = 0 then .ok .NotAllowed
  else if value = 1 then .ok .Allowed
  else if value = -1 then .ok .Unknown
  else .error (.invalidData "DRS status invalid")

/-- Mirror of parse_ers_deployment_mode: only wire codes 0-3 are accepted,
mapping 0 to None, 1 to Medium, 2 to Overtake and 3 to Hotlap. -/
def parse_ers_deployment_mode (value : Nat) : Except DecErr ERSDeploymentMode :=
  match value with
  | 0 => .ok .None
  | 1 => .ok .Medium
  | 2 => .ok .Overtake
  | 3 => .ok .Hotlap
  | _ => .error (.invalidData "ERS Deployment mode invalid")

/-- Mirror of parse_actual_tyre_compound: wire codes 0 and 255 both map
to Unknown; 7-20 map to the named compounds. -/
def parse_actual_tyre_compound (value : Nat) : Except DecErr ActualTyreCompound :=
  match value with
  | 16 => .ok .C5
  | 17 => .ok .C4
  | 18 => .ok .C3
  | 19 => .ok .C2
  | 20 => .ok .C1
  | 7 => .ok .Inter
  | 8 => .ok .Wet
  | 9 => .ok .F1ClassicDry
  | 10 => .ok .F1ClassicWet
  | 11 => .ok .F2SuperSoft
  | 12 => .ok .F2Soft
  | 13 => .ok .F2Medium
  | 14 => .ok .F2Hard
  | 15 => .ok .F2Wet
  | 0 => .ok .Unknown
  | 255 => .ok .Unknown
  | _ => .error (.invalidData "Tyre compound invalid")

/-- Mirror of parse_visual_tyre_compound: only wire code 0 maps to
Unknown (255 is not accepted); 7-18 map to the named compounds. -/
def parse_visual_tyre_compound (value : Nat) : Except DecErr VisualTyreCompound :=
  match value with
  | 16 => .ok .Soft
  | 17 => .ok .Medium
  | 18 => .ok .Hard
  | 7 => .ok .Inter
  | 8 => .ok .Wet
  | 9 => .ok .F1ClassicDry
  | 10 => .ok .F1ClassicWet
  | 11 => .ok .F2SuperSoft
  | 12 => .ok .F2Soft
  | 13 => .ok .F2Medium
  | 14 => .ok .F2Hard
  | 15 => .ok .F2Wet
  | 0 => .ok .Unknown
  | _ => .error (.invalidData "Tyre compound visual invalid")

/-- Mirror of parse_anti_lock_brakes. -/
def parse_anti_lock_brakes (value : Nat) : Except DecErr AntiLockBrakes :=
  match value with
  | 0 => .ok .Off
  | 1 => .ok .On
  | _ => .error (.invalidData "Anti lock brakes invalid")

/-- Mirror of parse_car_status. -/
def parse_car_status : PM CarStatusData := do
  let tc ← read_u8
  let traction_control ← liftR (parse_traction_control tc)
  let ab ← read_u8
  let anti_lock_brakes ← liftR (parse_anti_lock_brakes ab)
  let fm ← read_u8
  let fuel_mix ← liftR (parse_fuel_mix fm)
  let front_brake_bias ← read_u8
  let pl ← read_u8
  let pit_limiter := pl = 1
  let fuel_in_tank ← read_f32
  let fuel_capacity ← read_f32
  let fuel_remaining_laps ← read_f32
  let max_rpm ← read_u16
  let idle_rpm ← read_u16
  let max_gears ← read_u8
  let da ← read_i8
  let drs_allowed ← liftR (parse_drs da)
  let drs_activation_distance ← read_u16
  let tyres_wear ← read_wheel_u8
  let atc ← read_u8
  let actual_tyre_compound ← liftR (parse_actual_tyre_compound atc)
  let vtc ← read_u8
  let visual_tyre_compound ← liftR (parse_visual_tyre_compound vtc)
  let tyres_age_laps ← read_u8
  let tyres_damage ← read_wheel_u8
  let front_left_wing_damage ← read_u8
  let front_right_wing_damage ← read_u8
  let rear_wing_damage ← read_u8
  let df ← read_u8
  let drs_fault := df = 1
  let engine_damage ← read_u8
  let gear_box_damage ← read_u8
  let ff ← read_i8
  let vehicle_fia_flags ← liftR (parse_flag ff)
  let ers_store_energy ← read_f32
  let edm ← read_u8
  let ers_deploy_mode ← liftR (parse_ers_deployment_mode edm)
  let ers_harvested_this_lap_mguk ← read_f32
  let ers_harvested_this_lap_mguh ← read_f32
  let ers_deployed_this_lap ← read_f32
  pure {
    traction_control := traction_control
    anti_lock_brakes := anti_lock_brakes
    fuel_mix := fuel_mix
    front_brake_bias := front_brake_bias
    pit_limiter := pit_limiter
    fuel_in_tank := fuel_in_tank
    fuel_capacity := fuel_capacity
    fuel_remaining_laps := fuel_remaining_laps
    max_rpm := max_rpm
    idle_rpm := idle_rpm
    max_gears := max_gears
    drs_allowed := drs_allowed
    drs_activation_distance := drs_activation_distance
    tyres_wear := tyres_wear
    actual_tyre_compound := actual_tyre_compound
    visual_tyre_compound := visual_tyre_compound
    tyres_age_laps := tyres_age_laps
    tyres_damage := tyres_damage
    front_left_wing_damage := front_left_wing_damage
    front_right_wing_damage := front_right_wing_damage
    rear_wing_damage := rear_wing_damage
    drs_fault := drs_fault
    engine_damage := engine_damage
    gear_box_damage := gear_box_damage
    vehicle_fia_flags := vehicle_fia_flags
    ers_store_energy := ers_store_energy
    ers_deploy_mode := ers_deploy_mode
    ers_harvested_this_lap_mguk := ers_harvested_this_lap_mguk
    ers_harvested_this_lap_mguh := ers_harvested_this_lap_mguh
    ers_deployed_this_lap := ers_deployed_this_lap }

/-- Mirror of ensure_car_status_size (exact-size policy). -/
def ensure_car_status_size (size : Nat) : Except DecErr Unit :=
  if size = CAR_STATUS_MIN_SIZE then .ok ()
  else .error (.invalidData "Car status size is too small")

/-- Mirror of parse_car_status_data. -/
def parse_car_status_data (header : PacketHeader) (size : Nat) : PM PacketCarStatusData := do
  let _ ← liftR (ensure_car_status_size size)
  let car_status_data ← parse_count parse_car_status TOTAL_CARS
  pure { header := header, car_status_data := car_status_data }

/-! ## Participants (src/f1_2020/participants.rs, with the Team enum from
src/f1_2020/team.rs; the Driver and Nationality enum declarations live in
modules not present in the tree, their constructors are exactly the ones
the parse functions in participants.rs produce) -/

def PARTICIPANTS_MIN_SIZE : Nat := 1213

inductive YourTelemetry where
  | Restricted | Public
deriving DecidableEq, Repr

inductive Team where
  | Mercedes | Ferrari | RedBullRacing | Williams | RacingPoint | Renault
  | ToroRosso | Haas | McLaren | AlfaRomeo | McLaren1988 | McLaren1991
  | Williams1992 | Ferrari1995 | Williams1996 | McLaren1998 | Ferrari2002
  | Ferrari2004 | Renault2006 | Ferrari2007 | RedBull2010 | Ferrari1976
  | ARTGrandPrix | CamposVexatecRacing | Carlin | CharouzRacingSystem | DAMS
  | RussianTime | MPMotorsport | Pertamina | McLaren1990 | Trident | BWTArden
  | McLaren1976 | Lotus1972 | Ferrari1979 | McLaren1982 | Williams2003
  | Brawn2009 | Lotus1978 | ArtGP2019 | Campos2019 | Carlin2019
  | SauberJuniorCharouz2019 | Dams2019 | UniVirtuosi2019 | MPMotorsport2019
  | Prema2019 | Trident2019 | Arden2019 | Ferrari1990 | McLaren2010
  | Ferrari2010 | AlphaTauri | McLaren2008 | F1GenericCar | Benetton1994
  | Benetton1995 | Ferrari2000 | Jordan1991 | MyTeam | Unknown
deriving DecidableEq, Repr

inductive Driver where
  | CarlosSainz | DaniilKvyat | DanielRicciardo | KimiRaikkonen | LewisHamilton
  | MaxVerstappen | NicoHulkenburg | KevinMagnussen | RomainGrosjean
  | SebastianVettel | SergioPerez | ValtteriBottas | EstebanOcon | LanceStroll
  | ArronBarnes | MartinGiles | AlexMurray | LucasRoth | IgorCorreia
  | SophieLevasseur | JonasSchiffer | AlainForest | JayLetourneau | EstoSaari
  | YasarAtiyeh | CallistoCalabresi | NaotaIzum | HowardClarke | WilhelmKaufmann
  | MarieLaursen | FlavioNieves | PeterBelousov | KlimekMichalski
  | SantiagoMoreno | BenjaminCoppens | NoahVisser | GertWaldmuller
  | JulianQuesada | DanielJones | ArtemMarkelov | TadasukeMakino | SeanGelael
  | NyckDeVries | JackAitken | GeorgeRussell | MaximilianGunther
  | NireiFukuzumi | LucaGhiotto | LandoNorris | SergioSetteCamara
  | LouisDeletraz | AntonioFuoco | CharlesLeclerc | PierreGasly
  | AlexanderAlbon | NicholasLatifi | DorianBoccolacci | NikoKari
  | RobertoMerhi | ArjunMaini | AlessioLorandi | RubenMeijer | RashidNair
  | JackTremblay | AntonioGiovinazzi | RobertKubica | NobuharuMatsushita
  | NikitaMazepin | GuanyaZhou | MickSchumacher | CallumIlott
  | JuanManuelCorrea | JordanKing | MahaveerRaghunathan | TatianaCalderon
  | AnthoineHubert | GuilianoAlesi | RalphBoschung | Player
deriving DecidableEq, Repr

inductive Nationality where
  | American | Argentinean | Australian | Austrian | Azerbaijani | Bahraini
  | Belgian | Bolivian | Brazilian | British | Bulgarian | Cameroonian
  | Canadian | Chilean | Chinese | Colombian | CostaRican | Croatian
  | Cypriot | Czech | Danish | Dutch | Ecuadorian | English | Emirian
  | Estonian | Finnish | French | German | Ghanaian | Greek | Guatemalan
  | Honduran | HongKonger | Hungarian | Icelander | Indian | Indonesian
  | Irish | Israeli | Italian | Jamaican | Japanese | Jordanian | Kuwaiti
  | Latvian | Lebanese | Lithuanian | Luxembourger | Malaysian | Maltese
  | Mexican | Monegasque | NewZealander | Nicaraguan | NorthKorean
  | NorthernIrish | Norwegian | Omani | Pakistani | Panamanian | Paraguayan
  | Peruvian | Polish | Portuguese | Qatari | Romanian | Russian
  | Salvadoran | Saudi | Scottish | Serbian | Singaporean | Slovakian
  | Slovenian | SouthKorean | SouthAfrican | Spanish | Swedish | Swiss
  | Thai | Turkish | Uruguayan | Ukrainian | Venezuelan | Welsh | Barbadian
  | Vietnamese | Invalid
deriving DecidableEq, Repr

structure ParticipantData where
  ai_controlled : Bool
  driver : Driver
  team : Team
  race_number : Nat
  nationality : Nationality
  name : String
  your_telemetry : YourTelemetry
deriving DecidableEq, Repr

structure PacketParticipantsData where
  header : PacketHeader
  num_active_cars : Nat
  participants : List ParticipantData
deriving DecidableEq, Repr

/-- Mirror of ensure_participants_size (minimum-size policy). -/
def ensure_participants_size (size : Nat) : Except DecErr Unit :=
  if size < PARTICIPANTS_MIN_SIZE then
    .error (.invalidData "Participants size is too small")
  else .ok ()

/-- Mirror of parse_your_telemetry. -/
def parse_your_telemetry (value : Nat) : Except DecErr YourTelemetry :=
  match value with
  | 0 => .ok .Restricted
  | 1 => .ok .Public
  | _ => .error (.invalidData "Invalid telemetry")

/-- Loop body of parse_name: read up to the given number of bytes,
stopping early (without collecting) at the first null byte. -/
def parse_name_loop (k : Nat) : PM (List Nat) :=
  Nat.rec (motive := fun _ => PM (List Nat))
    (pure [])
    (fun _ ih => fun c =>
      match read_u8 c with
      | .ok b c1 =>
        if b = 0 then .ok [] c1
        else
          match ih c1 with
          | .ok bs c2 => .ok (b :: bs) c2
          | .err e c2 => .err e c2
          | .panicked m => .panicked m
      | .err e c1 => .err e c1
      | .panicked m => .panicked m)
    k

theorem parse_name_loop_zero : parse_name_loop 0 = pure [] := rfl

theorem parse_name_loop_succ (k : Nat) :
    parse_name_loop (k + 1) = fun c =>
      match read_u8 c with
      | .ok b c1 =>
        if b = 0 then .ok [] c1
        else
          match parse_name_loop k c1 with
          | .ok bs c2 => .ok (b :: bs) c2
          | .err e c2 => .err e c2
          | .panicked m => .panicked m
      | .err e c1 => .err e c1
      | .panicked m => .panicked m := rfl

/-- Mirror of parse_name: collect up to 48 bytes (truncating at the first
null), then set the cursor position to exactly 48 past where it started,
whatever the loop consumed. -/
def parse_name : PM String := fun c =>
  match parse_name_loop 48 c with
  | .ok letters c1 => .ok (String.mk (letters.map Char.ofNat)) { c1 with pos := c.pos + 48 }
  | .err e c1 => .err e c1
  | .panicked m => .panicked m

/-- Mirror of parse_driver; codes of 100 and above map to Player. -/
def parse_driver (value : Nat) : Except DecErr Driver :=
  match value with
  | 0 => .ok .CarlosSainz
  | 1 => .ok .DaniilKvyat
  | 2 => .ok .DanielRicciardo
  | 6 => .ok .KimiRaikkonen
  | 7 => .ok .LewisHamilton
  | 9 => .ok .MaxVerstappen
  | 10 => .ok .NicoHulkenburg
  | 11 => .ok .KevinMagnussen
  | 12 => .ok .RomainGrosjean
  | 13 => .ok .SebastianVettel
  | 14 => .ok .SergioPerez
  | 15 => .ok .ValtteriBottas
  | 17 => .ok .EstebanOcon
  | 19 => .ok .LanceStroll
  | 20 => .ok .ArronBarnes
  | 21 => .ok .MartinGiles
  | 22 => .ok .AlexMurray
  | 23 => .ok .LucasRoth
  | 24 => .ok .IgorCorreia
  | 25 => .ok .SophieLevasseur
  | 26 => .ok .JonasSchiffer
  | 27 => .ok .AlainForest
  | 28 => .ok .JayLetourneau
  | 29 => .ok .EstoSaari
  | 30 => .ok .YasarAtiyeh
  | 31 => .ok .CallistoCalabresi
  | 32 => .ok .NaotaIzum
  | 33 => .ok .HowardClarke
  | 34 => .ok .WilhelmKaufmann
  | 35 => .ok .MarieLaursen
  | 36 => .ok .FlavioNieves
  | 37 => .ok .PeterBelousov
  | 38 => .ok .KlimekMichalski
  | 39 => .ok .SantiagoMoreno
  | 40 => .ok .BenjaminCoppens
  | 41 => .ok .NoahVisser
  | 42 => .ok .GertWaldmuller
  | 43 => .ok .JulianQuesada
  | 44 => .ok .DanielJones
  | 45 => .ok .ArtemMarkelov
  | 46 => .ok .TadasukeMakino
  | 47 => .ok .SeanGelael
  | 48 => .ok .NyckDeVries
  | 49 => .ok .JackAitken
  | 50 => .ok .GeorgeRussell
  | 51 => .ok .MaximilianGunther
  | 52 => .ok .NireiFukuzumi
  | 53 => .ok .LucaGhiotto
  | 54 => .ok .LandoNorris
  | 55 => .ok .SergioSetteCamara
  | 56 => .ok .LouisDeletraz
  | 57 => .ok .AntonioFuoco
  | 58 => .ok .CharlesLeclerc
  | 59 => .ok .PierreGasly
  | 62 => .ok .AlexanderAlbon
  | 63 => .ok .NicholasLatifi
  | 64 => .ok .DorianBoccolacci
  | 65 => .ok .NikoKari
  | 66 => .ok .RobertoMerhi
  | 67 => .ok .ArjunMaini
  | 68 => .ok .AlessioLorandi
  | 69 => .ok .RubenMeijer
  | 70 => .ok .RashidNair
  | 71 => .ok .JackTremblay
  | 74 => .ok .AntonioGiovinazzi
  | 75 => .ok .RobertKubica
  | 78 => .ok .NobuharuMatsushita
  | 79 => .ok .NikitaMazepin
  | 80 => .ok .GuanyaZhou
  | 81 => .ok .MickSchumacher
  | 82 => .ok .CallumIlott
  | 83 => .ok .JuanManuelCorrea
  | 84 => .ok .JordanKing
  | 85 => .ok .MahaveerRaghunathan
  | 86 => .ok .TatianaCalderon
  | 87 => .ok .AnthoineHubert
  | 88 => .ok .GuilianoAlesi
  | 89 => .ok .RalphBoschung
  | v => if 100 ≤ v then .ok .Player else .error (.invalidData "Invalid driver")

/-- Mirror of parse_team. -/
def parse_team (value : Nat) : Except DecErr Team :=
  match value with
  | 0 => .ok .Mercedes
  | 1 => .ok .Ferrari
  | 2 => .ok .RedBullRacing
  | 3 => .ok .Williams
  | 4 => .ok .RacingPoint
  | 5 => .ok .Renault
  | 6 => .ok .AlphaTauri
  | 7 => .ok .Haas
  | 8 => .ok .McLaren
  | 9 => .ok .AlfaRomeo
  | 10 => .ok .McLaren1988
  | 11 => .ok .McLaren1991
  | 12 => .ok .Williams1992
  | 13 => .ok .Ferrari1995
  | 14 => .ok .Williams1996
  | 15 => .ok .McLaren1998
  | 16 => .ok .Ferrari2002
  | 17 => .ok .Ferrari2004
  | 18 => .ok .Renault2006
  | 19 => .ok .Ferrari2007
  | 20 => .ok .McLaren2008
  | 21 => .ok .RedBull2010
  | 22 => .ok .Ferrari1976
  | 23 => .ok .ARTGrandPrix
  | 24 => .ok .CamposVexatecRacing
  | 25 => .ok .Carlin
  | 26 => .ok .CharouzRacingSystem
  | 27 => .ok .DAMS
  | 28 => .ok .RussianTime
  | 29 => .ok .MPMotorsport
  | 30 => .ok .Pertamina
  | 31 => .ok .McLaren1990
  | 32 => .ok .Trident
  | 33 => .ok .BWTArden
  | 34 => .ok .McLaren1976
  | 35 => .ok .Lotus1972
  | 36 => .ok .Ferrari1979
  | 37 => .ok .McLaren1982
  | 38 => .ok .Williams2003
  | 39 => .ok .Brawn2009
  | 40 => .ok .Lotus1978
  | 41 => .ok .F1GenericCar
  | 42 => .ok .ArtGP2019
  | 43 => .ok .Campos2019
  | 44 => .ok .Carlin2019
  | 45 => .ok .SauberJuniorCharouz2019
  | 46 => .ok .Dams2019
  | 47 => .ok .UniVirtuosi2019
  | 48 => .ok .MPMotorsport2019
  | 49 => .ok .Prema2019
  | 50 => .ok .Trident2019
  | 51 => .ok .Arden2019
  | 53 => .ok .Benetton1994
  | 54 => .ok .Benetton1995
  | 55 => .ok .Ferrari2000
  | 56 => .ok .Jordan1991
  | 255 => .ok .MyTeam
  | _ => .error (.invalidData "Invalid team")

/-- Mirror of parse_nationality: wire codes 0 and 255 both map to
Invalid. -/
def parse_nationality (value : Nat) : Except DecErr Nationality :=
  match value with
  | 1 => .ok .American
  | 2 => .ok .Argentinean
  | 3 => .ok .Australian
  | 4 => .ok .Austrian
  | 5 => .ok .Azerbaijani
  | 6 => .ok .Bahraini
  | 7 => .ok .Belgian
  | 8 => .ok .Bolivian
  | 9 => .ok .Brazilian
  | 10 => .ok .British
  | 11 => .ok .Bulgarian
  | 12 => .ok .Cameroonian
  | 13 => .ok .Canadian
  | 14 => .ok .Chilean
  | 15 => .ok .Chinese
  | 16 => .ok .Colombian
  | 17 => .ok .CostaRican
  | 18 => .ok .Croatian
  | 19 => .ok .Cypriot
  | 20 => .ok .Czech
  | 21 => .ok .Danish
  | 22 => .ok .Dutch
  | 23 => .ok .Ecuadorian
  | 24 => .ok .English
  | 25 => .ok .Emirian
  | 26 => .ok .Estonian
  | 27 => .ok .Finnish
  | 28 => .ok .French
  | 29 => .ok .German
  | 30 => .ok .Ghanaian
  | 31 => .ok .Greek
  | 32 => .ok .Guatemalan
  | 33 => .ok .Honduran
  | 34 => .ok .HongKonger
  | 35 => .ok .Hungarian
  | 36 => .ok .Icelander
  | 37 => .ok .Indian
  | 38 => .ok .Indonesian
  | 39 => .ok .Irish
  | 40 => .ok .Israeli
  | 41 => .ok .Italian
  | 42 => .ok .Jamaican
  | 43 => .ok .Japanese
  | 44 => .ok .Jordanian
  | 45 => .ok .Kuwaiti
  | 46 => .ok .Latvian
  | 47 => .ok .Lebanese
  | 48 => .ok .Lithuanian
  | 49 => .ok .Luxembourger
  | 50 => .ok .Malaysian
  | 51 => .ok .Maltese
  | 52 => .ok .Mexican
  | 53 => .ok .Monegasque
  | 54 => .ok .NewZealander
  | 55 => .ok .Nicaraguan
  | 56 => .ok .NorthKorean
  | 57 => .ok .NorthernIrish
  | 58 => .ok .Norwegian
  | 59 => .ok .Omani
  | 60 => .ok .Pakistani
  | 61 => .ok .Panamanian
  | 62 => .ok .Paraguayan
  | 63 => .ok .Peruvian
  | 64 => .ok .Polish
  | 65 => .ok .Portuguese
  | 66 => .ok .Qatari
  | 67 => .ok .Romanian
  | 68 => .ok .Russian
  | 69 => .ok .Salvadoran
  | 70 => .ok .Saudi
  | 71 => .ok .Scottish
  | 72 => .ok .Serbian
  | 73 => .ok .Singaporean
  | 74 => .ok .Slovakian
  | 75 => .ok .Slovenian
  | 76 => .ok .SouthKorean
  | 77 => .ok .SouthAfrican
  | 78 => .ok .Spanish
  | 79 => .ok .Swedish
  | 80 => .ok .Swiss
  | 81 => .ok .Thai
  | 82 => .ok .Turkish
  | 83 => .ok .Uruguayan
  | 84 => .ok .Ukrainian
  | 85 => .ok .Venezuelan
  | 86 => .ok .Welsh
  | 87 => .ok .Barbadian
  | 88 => .ok .Vietnamese
  | 0 => .ok .Invalid
  | 255 => .ok .Invalid
  | _ => .error (.invalidData "Invalid nationality")

/-- Mirror of parse_participant. -/
def parse_participant : PM ParticipantData := do
  let ai ← read_u8
  let ai_controlled := ai = 1
  let d ← read_u8
  let driver ← liftR (parse_driver d)
  let t ← read_u8
  let team ← liftR (parse_team t)
  let race_number ← read_u8
  let n ← read_u8
  let nationality ← liftR (parse_nationality n)
  let name ← parse_name
  let yt ← read_u8
  let your_telemetry ← liftR (parse_your_telemetry yt)
  pure {
    ai_controlled := ai_controlled
    driver := driver
    team := team
    race_number := race_number
    nationality := nationality
    name := name
    your_telemetry := your_telemetry }

/-- Mirror of parse_participants_data. -/
def parse_participants_data (header : PacketHeader) (size : Nat) :
    PM PacketParticipantsData := do
  let _ ← liftR (ensure_participants_size size)
  let num_active_cars ← read_u8
  let participants ← parse_count parse_participant TOTAL_CARS
  pure {
    header := header
    num_active_cars := num_active_cars
    participants := participants }

/-! ## Final classification (src/f1_2020/final_classification.rs) -/

def FINAL_CLASSIFICATION_MIN_SIZE : Nat := 839

structure FinalClassificationData where
  position : Nat
  num_laps : Nat
  grid_position : Nat
  points : Nat
  num_pit_stops : Nat
  result_status : ResultStatus
  best_lap_time : Duration
  total_race_time : Duration
  penalties_time : Nat
  num_penalties : Nat
  num_tyre_stints : Nat
  tyre_stints_actual : List ActualTyreCompound
  tyre_stints_visual : List VisualTyreCompound
deriving DecidableEq, Repr

structure PacketFinalClassificationData where
  header : PacketHeader
  num_cars : Nat
  final_classification_data : List FinalClassificationData
deriving DecidableEq, Repr

/-- Loop body reading one actual-tyre-compound code. -/
def parse_stint_actual : PM ActualTyreCompound := do
  let v ← read_u8
  liftR (parse_actual_tyre_compound v)

/-- Loop body reading one visual-tyre-compound code. -/
def parse_stint_visual : PM VisualTyreCompound := do
  let v ← read_u8
  liftR (parse_visual_tyre_compound v)

/-- Mirror of parse_final_classification. -/
def parse_final_classification : PM FinalClassificationData := do
  let position ← read_u8
  let num_laps ← read_u8
  let grid_position ← read_u8
  let points ← read_u8
  let num_pit_stops ← read_u8
  let result_status ← parse_result_status
  let blt ← read_f32
  let best_lap_time ← liftDur (Duration.from_secs_f32 blt)
  let trt ← read_f64
  let total_race_time ← liftDur (Duration.from_secs_f64 trt)
  let penalties_time ← read_u8
  let num_penalties ← read_u8
  let num_tyre_stints ← read_u8
  let tyre_stints_actual ← parse_count parse_stint_actual 8
  let tyre_stints_visual ← parse_count parse_stint_visual 8
  pure {
    position := position
    num_laps := num_laps
    grid_position := grid_position
    points := points
    num_pit_stops := num_pit_stops
    result_status := result_status
    best_lap_time := best_lap_time
    total_race_time := total_race_time
    penalties_time := penalties_time
    num_penalties := num_penalties
    num_tyre_stints := num_tyre_stints
    tyre_stints_actual := tyre_stints_actual
    tyre_stints_visual := tyre_stints_visual }

/-- Mirror of ensure_final_classification_size (exact-size policy). -/
def ensure_final_classification_size (size : Nat) : Except DecErr Unit :=
  if size = FINAL_CLASSIFICATION_MIN_SIZE then .ok ()
  else .error (.invalidData "Final classification size is too small")

/-- Mirror of parse_final_classification_data. -/
def parse_final_classification_data (header : PacketHeader) (size : Nat) :
    PM PacketFinalClassificationData := do
  let _ ← liftR (ensure_final_classification_size size)
  let num_cars ← read_u8
  let final_classification_data ← parse_count parse_final_classification TOTAL_CARS
  pure {
    header := header
    num_cars := num_cars
    final_classification_data := final_classification_data }

/-! ## Lobby info (src/f1_2020/lobby_info.rs) -/

def LOBBY_INFO_MIN_SIZE : Nat := 1169

inductive ReadyStatus where
  | NotReady | Ready | Spectating
deriving DecidableEq, Repr

structure LobbyInfoData where
  ai_controlled : Bool
  team : Team
  nationality : Nationality
  name : String
  ready_status : ReadyStatus
deriving DecidableEq, Repr

structure PacketLobbyInfoData where
  header : PacketHeader
  num_players : Nat
  lobby_info_data : List LobbyInfoData
deriving DecidableEq, Repr

/-- Mirror of parse_ready_status. -/
def parse_ready_status (value : Nat) : Except DecErr ReadyStatus :=
  match value with
  | 0 => .ok .NotReady
  | 1 => .ok .Ready
  | 2 => .ok .Spectating
  | _ => .error (.invalidData "Ready status invalid")

/-- Name loop of parse_lobby_info: all 48 bytes are read and collected as
characters, with no truncation at null bytes. -/
def read_lobby_name : PM (List Nat) := parse_count read_u8 48

/-- Mirror of parse_lobby_info. -/
def parse_lobby_info : PM LobbyInfoData := do
  let ai ← read_u8
  let ai_controlled := ai = 1
  let t ← read_u8
  let team ← liftR (parse_team t)
  let n ← read_u8
  let nationality ← liftR (parse_nationality n)
  let name_bytes ← read_lobby_name
  let name := String.mk (name_bytes.map Char.ofNat)
  let rs ← read_u8
  let ready_status ← liftR (parse_ready_status rs)
  pure {
    ai_controlled := ai_controlled
    team := team
    nationality := nationality
    name := name
    ready_status := ready_status }

/-- Mirror of ensure_lobby_info_size (exact-size policy). -/
def ensure_lobby_info_size (size : Nat) : Except DecErr Unit :=
  if size = LOBBY_INFO_MIN_SIZE then .ok ()
  else .error (.invalidData "Lobby info size is too small")

/-- Mirror of parse_lobby_info_data. -/
def parse_lobby_info_data (header : PacketHeader) (size : Nat) :
    PM PacketLobbyInfoData := do
  let _ ← liftR (ensure_lobby_info_size size)
  let num_players ← read_u8
  let lobby_info_data ← parse_count parse_lobby_info TOTAL_CARS
  pure {
    header := header
    num_players := num_players
    lobby_info_data := lobby_info_data }

/-! ## Dispatcher (src/f1_2020/packet.rs) and transport entry (src/lib.rs) -/

inductive PacketID where
  | Motion | Session | LapData | Event | Participants | CarSetups
  | CarTelemetry | CarStatus | FinalClassification | LobbyInfo
deriving DecidableEq, Repr

inductive Packet2020 where
  | Motion (p : PacketMotionData)
  | Session (p : PacketSessionData)
  | Lap (p : PacketLapData)
  | Event (p : PacketEventData)
  | Participants (p : PacketParticipantsData)
  | CarSetups (p : PacketCarSetupData)
  | CarTelemetry (p : PacketCarTelemetryData)
  | CarStatus (p : PacketCarStatusData)
  | FinalClassification (p : PacketFinalClassificationData)
  | LobbyInfo (p : PacketLobbyInfoData)
deriving DecidableEq, Repr

/-- Mirror of packet_type. -/
def packet_type (packet_id : Nat) : Except DecErr PacketID :=
  match packet_id with
  | 0 => .ok .Motion
  | 1 => .ok .Session
  | 2 => .ok .LapData
  | 3 => .ok .Event
  | 4 => .ok .Participants
  | 5 => .ok .CarSetups
  | 6 => .ok .CarTelemetry
  | 7 => .ok .CarStatus
  | 8 => .ok .FinalClassification
  | 9 => .ok .LobbyInfo
  | _ => .error (.invalidData "Failed to parse packet_type")

/-- Mirror of parse_f12020: header first, then dispatch on the packet-id
byte to the per-kind decoder. -/
def parse_f12020 (size : Nat) : PM Packet2020 := do
  let header ← parse_headers size
  let pid ← liftR (packet_type header.packet_id)
  match pid with
  | .Motion => do
    let motion ← parse_motion_data header size
    pure (.Motion motion)
  | .Session => do
    let session ← parse_session header size
    pure (.Session session)
  | .LapData => do
    let lap ← parse_lap_data header size
    pure (.Lap lap)
  | .Event => do
    let event ← parse_event_data header size
    pure (.Event event)
  | .Participants => do
    let participants ← parse_participants_data header size
    pure (.Participants participants)
  | .CarSetups => do
    let car_setups ← parse_car_setup_data header size
    pure (.CarSetups car_setups)
  | .CarTelemetry => do
    let car_telemetry ← parse_car_telemetry_data header size
    pure (.CarTelemetry car_telemetry)
  | .CarStatus => do
    let car_status ← parse_car_status_data header size
    pure (.CarStatus car_status)
  | .FinalClassification => do
    let final_classification ← parse_final_classification_data header size
    pure (.FinalClassification final_classification)
  | .LobbyInfo => do
    let lobby_info ← parse_lobby_info_data header size
    pure (.LobbyInfo lobby_info)

/-- Mirror of the two-variant envelope in src/packet.rs (only F12020 is
ever produced by the code). -/
inductive Packet where
  | F12020 (p : Packet2020)
  | F12019
  | F12018
  | NONE
deriving DecidableEq, Repr

/-- Mirror of Telemetry::next after the socket receive: the received
datagram is copied into a zero-initialised 2048-byte buffer, the declared
size is the received length, the format field is peeked from a clone of
the cursor, and only the 2020 arm parses; the 2019, 2018 and catch-all
arms are unimplemented and panic. -/
def telemetry_next (datagram : List Nat) : PRes Packet :=
  let buf : Nat → Option Nat := fun i =>
    if i < 2048 then
      match byteAt i datagram with
      | some b => some b
      | none => some 0
    else none
  let size := min datagram.length 2048
  match read_u16 { buf := buf, pos := 0 } with
  | .ok packet_format _ =>
    if packet_format = 2020 then
      match parse_f12020 size { buf := buf, pos := 0 } with
      | .ok result c => .ok (.F12020 result) c
      | .err e c => .err e c
      | .panicked m => .panicked m
    else .panicked "not implemented"
  | .err e c => .err e c
  | .panicked m => .panicked m

/-! ## Basic inversion lemmas for the decode monad -/

theorem PM.bind_ok_inv {α β : Type} {x : PM α} {f : α → PM β} {c c2 : Cursor} {b : β}
    (h : (x >>= f) c = .ok b c2) : ∃ a c1, x c = .ok a c1 ∧ f a c1 = .ok b c2 := by
  rw [PM.bind_apply] at h
  cases hx : x c with
  | ok a c1 => exact ⟨a, c1, rfl, by rwa [hx] at h⟩
  | err e c1 => rw [hx] at h; exact absurd h (by simp)
  | panicked m => rw [hx] at h; exact absurd h (by simp)

theorem parse_count_length {α : Type} (p : PM α) :
    ∀ k c l c2, parse_count p k c = .ok l c2 → l.length = k := by
  intro k
  induction k with
  | zero =>
    intro c l c2 h
    rw [parse_count_zero, PM.pure_apply] at h
    cases h
    rfl
  | succ n ih =>
    intro c l c2 h
    rw [parse_count_succ] at h
    obtain ⟨a, c1, ha, h⟩ := PM.bind_ok_inv h
    obtain ⟨rest, c3, hrest, h⟩ := PM.bind_ok_inv h
    rw [PM.pure_apply] at h
    cases h
    simp [ih _ _ _ hrest]

deriving instance DecidableEq for Except

set_option maxRecDepth 131072
set_option maxHeartbeats 12000000

/-! ## Claim theorems -/

/-- C4: the session-type table maps 0-8 and 10-12 to their documented
variants and rejects codes above 12, but its entry for code 9 returns
ShortQ, not the OSQ its own doc comments declare: this closed evaluation
of the code exhibits the bug (OSQ is never produced at all). -/
theorem session_type_code9_is_ShortQ_not_OSQ :
    parse_session_type 9 = .ok SessionType.ShortQ ∧
    parse_session_type 9 ≠ .ok SessionType.OSQ ∧
    SessionType.ShortQ ≠ SessionType.OSQ ∧
    parse_session_type 0 = .ok SessionType.Unknown ∧
    parse_session_type 1 = .ok SessionType.P1 ∧
    parse_session_type 2 = .ok SessionType.P2 ∧
    parse_session_type 3 = .ok SessionType.P3 ∧
    parse_session_type 4 = .ok SessionType.ShortP ∧
    parse_session_type 5 = .ok SessionType.Q1 ∧
    parse_session_type 6 = .ok SessionType.Q2 ∧
    parse_session_type 7 = .ok SessionType.Q3 ∧
    parse_session_type 8 = .ok SessionType.ShortQ ∧
    parse_session_type 10 = .ok SessionType.R ∧
    parse_session_type 11 = .ok SessionType.R2 ∧
    parse_session_type 12 = .ok SessionType.TimeTrial ∧
    parse_session_type 13 = .error (.invalidData "Invalid session type") ∧
    parse_session_type 255 = .error (.invalidData "Invalid session type") := by
  decide

/-- C5 (amended): in the actual tyre-compound table the wire codes 0 and
255 are aliases for Unknown and every other code outside 7-20 errors; in
the visual table only 0 maps to Unknown, code 255 is rejected like any
code outside 0 and 7-18; code 6 errors in both. -/
theorem tyre_compound_unknown_aliasing :
    parse_actual_tyre_compound 0 = .ok ActualTyreCompound.Unknown ∧
    parse_actual_tyre_compound 255 = .ok ActualTyreCompound.Unknown ∧
    parse_visual_tyre_compound 0 = .ok VisualTyreCompound.Unknown ∧
    parse_visual_tyre_compound 255 = .error (.invalidData "Tyre compound visual invalid") ∧
    parse_actual_tyre_compound 6 = .error (.invalidData "Tyre compound invalid") ∧
    parse_visual_tyre_compound 6 = .error (.invalidData "Tyre compound visual invalid") ∧
    (∀ v : Nat, v < 256 → ¬(v = 0 ∨ v = 255 ∨ (7 ≤ v ∧ v ≤ 20)) →
      parse_actual_tyre_compound v = .error (.invalidData "Tyre compound invalid")) ∧
    (∀ v : Nat, v < 256 → ¬(v = 0 ∨ (7 ≤ v ∧ v ≤ 18)) →
      parse_visual_tyre_compound v = .error (.invalidData "Tyre compound visual invalid")) := by
  refine ⟨rfl, rfl, rfl, rfl, rfl, rfl, by decide, by decide⟩

/-- C5 witness: the universally quantified rejection conjuncts of the
aliasing theorem applied at the concrete out-of-domain codes 6 and 21
(actual) and 6 and 255 (visual). -/
theorem tyre_compound_unknown_aliasing_witness :
    parse_actual_tyre_compound 6 = .error (.invalidData "Tyre compound invalid") ∧
    parse_actual_tyre_compound 21 = .error (.invalidData "Tyre compound invalid") ∧
    parse_visual_tyre_compound 6 = .error (.invalidData "Tyre compound visual invalid") ∧
    parse_visual_tyre_compound 255 = .error (.invalidData "Tyre compound visual invalid") :=
  ⟨tyre_compound_unknown_aliasing.2.2.2.2.2.2.1 6 (by decide) (by decide),
   tyre_compound_unknown_aliasing.2.2.2.2.2.2.1 21 (by decide) (by decide),
   tyre_compound_unknown_aliasing.2.2.2.2.2.2.2 6 (by decide) (by decide),
   tyre_compound_unknown_aliasing.2.2.2.2.2.2.2 255 (by decide) (by decide)⟩

/-- C5 counterexample: visual tyre-compound code 255 is rejected with an
invalid-enum error instead of decoding to Unknown as the claim states. -/
theorem visual_tyre_compound_255_errors :
    parse_visual_tyre_compound 255 = .error (.invalidData "Tyre compound visual invalid") := rfl

/-- C10: the ERS deploy-mode decoder accepts exactly the wire codes 0-3,
mapping 0 to None, 1 to Medium, 2 to Overtake, 3 to Hotlap; every other
byte (including 4 and 5) errors; the Low and High variants declared in
the enum with discriminants 1 and 3 are never produced. -/
theorem ers_deploy_mode_table :
    parse_ers_deployment_mode 0 = .ok ERSDeploymentMode.None ∧
    parse_ers_deployment_mode 1 = .ok ERSDeploymentMode.Medium ∧
    parse_ers_deployment_mode 2 = .ok ERSDeploymentMode.Overtake ∧
    parse_ers_deployment_mode 3 = .ok ERSDeploymentMode.Hotlap ∧
    (∀ v : Nat, v < 256 → 4 ≤ v →
      parse_ers_deployment_mode v = .error (.invalidData "ERS Deployment mode invalid")) ∧
    (∀ v : Nat, v < 256 →
      parse_ers_deployment_mode v ≠ .ok ERSDeploymentMode.Low ∧
      parse_ers_deployment_mode v ≠ .ok ERSDeploymentMode.High) ∧
    ERSDeploymentMode.Low.discriminant = 1 ∧
    ERSDeploymentMode.High.discriminant = 3 := by
  refine ⟨rfl, rfl, rfl, rfl, by decide, by decide, rfl, rfl⟩

/-- C10 witness: the rejection conjunct applied at codes 4 and 5, and
the never-Low/never-High conjunct applied at code 1. -/
theorem ers_deploy_mode_table_witness :
    parse_ers_deployment_mode 4 = .error (.invalidData "ERS Deployment mode invalid") ∧
    parse_ers_deployment_mode 5 = .error (.invalidData "ERS Deployment mode invalid") ∧
    parse_ers_deployment_mode 1 ≠ .ok ERSDeploymentMode.Low ∧
    parse_ers_deployment_mode 3 ≠ .ok ERSDeploymentMode.High :=
  ⟨ers_deploy_mode_table.2.2.2.2.1 4 (by decide) (by decide),
   ers_deploy_mode_table.2.2.2.2.1 5 (by decide) (by decide),
   (ers_deploy_mode_table.2.2.2.2.2.1 1 (by decide)).1,
   (ers_deploy_mode_table.2.2.2.2.2.1 3 (by decide)).2⟩

/-- Empty cursor used to exercise the size validators, which must reject
before reading any byte. -/
def empty_cursor : Cursor := { buf := fun _ => none, pos := 0 }

/-- Sample already-decoded header handed to the per-kind decoders. -/
def sample_header : PacketHeader := {
  packet_format := 2020
  major_version := 1
  minor_version := 2
  packet_version := 3
  packet_id := 0
  session_uid := 0
  session_time := { secs := 0, nanos := 0 }
  frame_identifier := 0
  player_car_index := 0
  secondary_player_car_index := 0 }

/-- C3: each per-kind size validator accepts exactly the sizes its policy
allows (exact equality for Session 251, Event 35, CarSetups 1102,
CarTelemetry 1307, CarStatus 1344, FinalClassification 839, LobbyInfo
1169; at-least for Motion 1464, Lap 1190, Participants 1213), and on a
violating declared length the per-kind decoder returns the size error
with the cursor untouched, before any kind-specific field is read. -/
theorem per_kind_size_policy :
    (∀ s, ensure_session_size s = .ok () ↔ s = 251) ∧
    (∀ (hd : PacketHeader) s c, s ≠ 251 →
      parse_session hd s c = .err (.invalidData "Session size is too small") c) ∧
    (∀ s, ensure_event_size s = .ok () ↔ s = 35) ∧
    (∀ (hd : PacketHeader) s c, s ≠ 35 →
      parse_event_data hd s c = .err (.invalidData "Event size is too small") c) ∧
    (∀ s, ensure_car_setup_size s = .ok () ↔ s = 1102) ∧
    (∀ (hd : PacketHeader) s c, s ≠ 1102 →
      parse_car_setup_data hd s c = .err (.invalidData "Car setup size is too small") c) ∧
    (∀ s, ensure_car_telemetry_size s = .ok () ↔ s = 1307) ∧
    (∀ (hd : PacketHeader) s c, s ≠ 1307 →
      parse_car_telemetry_data hd s c = .err (.invalidData "Car telemetry size is too small") c) ∧
    (∀ s, ensure_car_status_size s = .ok () ↔ s = 1344) ∧
    (∀ (hd : PacketHeader) s c, s ≠ 1344 →
      parse_car_status_data hd s c = .err (.invalidData "Car status size is too small") c) ∧
    (∀ s, ensure_final_classification_size s = .ok () ↔ s = 839) ∧
    (∀ (hd : PacketHeader) s c, s ≠ 839 →
      parse_final_classification_data hd s c =
        .err (.invalidData "Final classification size is too small") c) ∧
    (∀ s, ensure_lobby_info_size s = .ok () ↔ s = 1169) ∧
    (∀ (hd : PacketHeader) s c, s ≠ 1169 →
      parse_lobby_info_data hd s c = .err (.invalidData "Lobby info size is too small") c) ∧
    (∀ s, ensure_motion_size s = .ok () ↔ 1464 ≤ s) ∧
    (∀ (hd : PacketHeader) s c, s < 1464 →
      parse_motion_data hd s c = .err (.invalidData "Motion size is too small") c) ∧
    (∀ s, ensure_lap_data_size s = .ok () ↔ 1190 ≤ s) ∧
    (∀ (hd : PacketHeader) s c, s < 1190 →
      parse_lap_data hd s c = .err (.invalidData "Lap data size is too small") c) ∧
    (∀ s, ensure_participants_size s = .ok () ↔ 1213 ≤ s) ∧
    (∀ (hd : PacketHeader) s c, s < 1213 →
      parse_participants_data hd s c = .err (.invalidData "Participants size is too small") c) := by
  refine ⟨?_, ?_, ?_, ?_, ?_, ?_, ?_, ?_, ?_, ?_, ?_, ?_, ?_, ?_, ?_, ?_, ?_, ?_, ?_, ?_⟩
  · intro s; by_cases h : s = 251 <;> simp [ensure_session_size, SESSION_MIN_SIZE, h]
  · intro hd s c hs
    simp [parse_session, PM.bind_apply, liftR, ensure_session_size, SESSION_MIN_SIZE, hs]
  · intro s; by_cases h : s = 35 <;> simp [ensure_event_size, EVENT_MIN_SIZE, h]
  · intro hd s c hs
    simp [parse_event_data, PM.bind_apply, liftR, ensure_event_size, EVENT_MIN_SIZE, hs]
  · intro s; by_cases h : s = 1102 <;> simp [ensure_car_setup_size, CAR_SETUP_MIN_SIZE, h]
  · intro hd s c hs
    simp [parse_car_setup_data, PM.bind_apply, liftR, ensure_car_setup_size,
      CAR_SETUP_MIN_SIZE, hs]
  · intro s
    by_cases h : s = 1307 <;> simp [ensure_car_telemetry_size, CAR_TELEMETRY_MIN_SIZE, h]
  · intro hd s c hs
    simp [parse_car_telemetry_data, PM.bind_apply, liftR, ensure_car_telemetry_size,
      CAR_TELEMETRY_MIN_SIZE, hs]
  · intro s; by_cases h : s = 1344 <;> simp [ensure_car_status_size, CAR_STATUS_MIN_SIZE, h]
  · intro hd s c hs
    simp [parse_car_status_data, PM.bind_apply, liftR, ensure_car_status_size,
      CAR_STATUS_MIN_SIZE, hs]
  · intro s
    by_cases h : s = 839 <;>
      simp [ensure_final_classification_size, FINAL_CLASSIFICATION_MIN_SIZE, h]
  · intro hd s c hs
    simp [parse_final_classification_data, PM.bind_apply, liftR,
      ensure_final_classification_size, FINAL_CLASSIFICATION_MIN_SIZE, hs]
  · intro s; by_cases h : s = 1169 <;> simp [ensure_lobby_info_size, LOBBY_INFO_MIN_SIZE, h]
  · intro hd s c hs
    simp [parse_lobby_info_data, PM.bind_apply, liftR, ensure_lobby_info_size,
      LOBBY_INFO_MIN_SIZE, hs]
  · intro s
    by_cases h : s < 1464 <;> simp [ensure_motion_size, MOTION_MIN_SIZE, h] <;> omega
  · intro hd s c hs
    simp [parse_motion_data, PM.bind_apply, liftR, ensure_motion_size, MOTION_MIN_SIZE, hs]
  · intro s
    by_cases h : s < 1190 <;> simp [ensure_lap_data_size, LAP_DATA_MIN_SIZE, h] <;> omega
  · intro hd s c hs
    simp [parse_lap_data, PM.bind_apply, liftR, ensure_lap_data_size, LAP_DATA_MIN_SIZE, hs]
  · intro s
    by_cases h : s < 1213 <;> simp [ensure_participants_size, PARTICIPANTS_MIN_SIZE, h] <;> omega
  · intro hd s c hs
    simp [parse_participants_data, PM.bind_apply, liftR, ensure_participants_size,
      PARTICIPANTS_MIN_SIZE, hs]

/-- C3 witness: the size-policy theorem applied at concrete violating
sizes for each of the ten kinds (Session at 250, Event at 36, CarSetups
at 1101, CarTelemetry at 1306, CarStatus at 1343, FinalClassification at
838, LobbyInfo at 1168, Motion at 1463, Lap at 1189, Participants at
1212), plus its accepting direction at Motion 1465 (a minimum-policy kind
accepting a longer datagram) and Session 251. -/
theorem per_kind_size_policy_witness :
    parse_session sample_header 250 empty_cursor =
      .err (.invalidData "Session size is too small") empty_cursor ∧
    parse_event_data sample_header 36 empty_cursor =
      .err (.invalidData "Event size is too small") empty_cursor ∧
    parse_car_setup_data sample_header 1101 empty_cursor =
      .err (.invalidData "Car setup size is too small") empty_cursor ∧
    parse_car_telemetry_data sample_header 1306 empty_cursor =
      .err (.invalidData "Car telemetry size is too small") empty_cursor ∧
    parse_car_status_data sample_header 1343 empty_cursor =
      .err (.invalidData "Car status size is too small") empty_cursor ∧
    parse_final_classification_data sample_header 838 empty_cursor =
      .err (.invalidData "Final classification size is too small") empty_cursor ∧
    parse_lobby_info_data sample_header 1168 empty_cursor =
      .err (.invalidData "Lobby info size is too small") empty_cursor ∧
    parse_motion_data sample_header 1463 empty_cursor =
      .err (.invalidData "Motion size is too small") empty_cursor ∧
    parse_lap_data sample_header 1189 empty_cursor =
      .err (.invalidData "Lap data size is too small") empty_cursor ∧
    parse_participants_data sample_header 1212 empty_cursor =
      .err (.invalidData "Participants size is too small") empty_cursor ∧
    ensure_motion_size 1465 = .ok () ∧
    ensure_session_size 251 = .ok () :=
  ⟨per_kind_size_policy.2.1 sample_header 250 empty_cursor (by decide),
   per_kind_size_policy.2.2.2.1 sample_header 36 empty_cursor (by decide),
   per_kind_size_policy.2.2.2.2.2.1 sample_header 1101 empty_cursor (by decide),
   per_kind_size_policy.2.2.2.2.2.2.2.1 sample_header 1306 empty_cursor (by decide),
   per_kind_size_policy.2.2.2.2.2.2.2.2.2.1 sample_header 1343 empty_cursor (by decide),
   per_kind_size_policy.2.2.2.2.2.2.2.2.2.2.2.1 sample_header 838 empty_cursor (by decide),
   per_kind_size_policy.2.2.2.2.2.2.2.2.2.2.2.2.2.1 sample_header 1168 empty_cursor (by decide),
   per_kind_size_policy.2.2.2.2.2.2.2.2.2.2.2.2.2.2.2.1 sample_header 1463 empty_cursor
     (by decide),
   per_kind_size_policy.2.2.2.2.2.2.2.2.2.2.2.2.2.2.2.2.2.1 sample_header 1189 empty_cursor
     (by decide),
   per_kind_size_policy.2.2.2.2.2.2.2.2.2.2.2.2.2.2.2.2.2.2.2 sample_header 1212 empty_cursor
     (by decide),
   (per_kind_size_policy.2.2.2.2.2.2.2.2.2.2.2.2.2.2.1 1465).mpr (by decide),
   (per_kind_size_policy.1 251).mpr rfl⟩


/-- Concrete 24-byte header from the testable-properties scenario:
format 2020, versions 1/2/3, packet id 0, session uid u64 max, session
time 1.0f32, frame id u32 max, player indices 19 and 255, all
little-endian. -/
def header_bytes_2020 : List Nat :=
  [228, 7, 1, 2, 3, 0, 255, 255, 255, 255, 255, 255, 255, 255,
   0, 0, 128, 63, 255, 255, 255, 255, 19, 255]

/-- C7: a declared length below 24 fails header decode with the
invalid-size error before any byte is consumed, whatever the buffer
holds; with length 24 the concrete scenario header decodes field by field
in wire order (all multi-byte values little-endian) to exactly the stated
record, whose session-time duration is exactly 1000 milliseconds. -/
theorem header_decode_spec :
    (∀ c s, s < 24 → parse_headers s c = .err (.invalidData "Header size is too small") c) ∧
    parse_headers 24 { buf := bufOfList header_bytes_2020, pos := 0 } =
      .ok {
        packet_format := 2020
        major_version := 1
        minor_version := 2
        packet_version := 3
        packet_id := 0
        session_uid := 18446744073709551615
        session_time := { secs := 1, nanos := 0 }
        frame_identifier := 4294967295
        player_car_index := 19
        secondary_player_car_index := 255 }
        { buf := bufOfList header_bytes_2020, pos := 24 } ∧
    Duration.as_millis { secs := 1, nanos := 0 } = 1000 := by
  refine ⟨?_, rfl, rfl⟩
  intro c s hs
  simp [parse_headers, PM.bind_apply, liftR, ensure_header_size, HEADER_MIN_SIZE, hs]

/-- C7 witness: the undersized branch of the header theorem applied at
declared length 23 on a buffer that does hold valid header bytes. -/
theorem header_decode_spec_witness :
    parse_headers 23 { buf := bufOfList header_bytes_2020, pos := 0 } =
      .err (.invalidData "Header size is too small")
        { buf := bufOfList header_bytes_2020, pos := 0 } :=
  header_decode_spec.1 { buf := bufOfList header_bytes_2020, pos := 0 } 23 (by decide)

/-- Concrete 24-byte header whose session-time float is -1.0
(bytes 0x00 0x00 0x80 0xBF little-endian). -/
def header_bytes_negative_time : List Nat :=
  [228, 7, 1, 2, 3, 0, 0, 0, 0, 0, 0, 0, 0, 0,
   0, 0, 128, 191, 0, 0, 0, 0, 0, 0]

/-- Concrete 24-byte header whose session-time float is a quiet NaN
(bytes 0x00 0x00 0xC0 0x7F little-endian). -/
def header_bytes_nan_time : List Nat :=
  [228, 7, 1, 2, 3, 0, 0, 0, 0, 0, 0, 0, 0, 0,
   0, 0, 192, 127, 0, 0, 0, 0, 0, 0]

/-- Concrete event packet (declared size 35) with a well-formed header
(session time 0.0) and an FTLP event whose lap-time float is -1.0. -/
def event_bytes_negative_laptime : List Nat :=
  [228, 7, 1, 2, 3, 3, 0, 0, 0, 0, 0, 0, 0, 0,
   0, 0, 0, 0, 0, 0, 0, 0, 0, 0,
   70, 84, 76, 80, 5, 0, 0, 128, 191]

/-- Concrete lap packet (declared size 1190) with a well-formed header
and a first per-car last-lap-time float of -1.0. -/
def lap_bytes_negative_laptime : List Nat :=
  [228, 7, 1, 2, 3, 2, 0, 0, 0, 0, 0, 0, 0, 0,
   0, 0, 0, 0, 0, 0, 0, 0, 0, 0,
   0, 0, 128, 191]

/-- C1: the decode pipeline panics instead of returning a decode error
when a session-time or lap-time float field encodes a negative or NaN
value: Duration::from_secs_f32 aborts the process on such inputs.  Each
conjunct evaluates parse_f12020 at a concrete malformed datagram. -/
theorem decode_panics_on_negative_float_times :
    parse_f12020 24 { buf := bufOfList header_bytes_negative_time, pos := 0 } =
      .panicked "can not convert float seconds to Duration: value is negative" ∧
    parse_f12020 24 { buf := bufOfList header_bytes_nan_time, pos := 0 } =
      .panicked "can not convert float seconds to Duration: value is either too big or NaN" ∧
    parse_f12020 35 { buf := bufOfList event_bytes_negative_laptime, pos := 0 } =
      .panicked "can not convert float seconds to Duration: value is negative" ∧
    parse_f12020 1190 { buf := bufOfList lap_bytes_negative_laptime, pos := 0 } =
      .panicked "can not convert float seconds to Duration: value is negative" :=
  ⟨rfl, rfl, rfl, rfl⟩

/-- C2 (amended): on a datagram whose leading two bytes do not encode
2020 little-endian, the dispatcher never reaches a per-kind decoder and
never returns a value or an error: the non-2020 match arms are
unimplemented and the call panics. -/
theorem non_2020_format_panics :
    ∀ b0 b1 rest, b0 + 256 * b1 ≠ 2020 →
      telemetry_next (b0 :: b1 :: rest) = .panicked "not implemented" := by
  intro b0 b1 rest h
  simp only [telemetry_next]
  simp [read_u16, read_u8, byteAt, PM.bind_apply, PM.pure_apply, h]

/-- C2 witness: the amended theorem applied to a datagram advertising
format 2019. -/
theorem non_2020_format_panics_witness :
    telemetry_next [227, 7] = .panicked "not implemented" :=
  non_2020_format_panics 227 7 [] (by decide)

/-- C2 counterexample: on the concrete 2019-format datagram the decoder
returns neither an error value nor a packet, contradicting the claim that
an UnsupportedProtocolVersion error is returned to the caller; the call
panics. -/
theorem non_2020_format_returns_no_error :
    (telemetry_next [227, 7]).toErr = none ∧
    (telemetry_next [227, 7]).toOk = none ∧
    telemetry_next [227, 7] = .panicked "not implemented" := by
  refine ⟨?_, ?_, ?_⟩ <;> rfl

theorem PRes.ok_of_toOk_isSome {α : Type} {p : PRes α} (h : p.toOk.isSome = true) :
    ∃ r c, p = .ok r c := by
  cases p <;> simp [PRes.toOk] at h ⊢

/-- C9: whenever a Motion, Lap, CarSetups, CarTelemetry, CarStatus,
Participants, FinalClassification or LobbyInfo packet decodes
successfully, its per-car array has exactly 22 entries (the
fixed-count loops run TOTAL_CARS times regardless of any in-packet
active/player/car count field). -/
theorem fixed_car_arrays_have_22_entries :
    (∀ hd s c r c2, parse_motion_data hd s c = .ok r c2 →
      r.motion_data.length = 22) ∧
    (∀ hd s c r c2, parse_lap_data hd s c = .ok r c2 →
      r.lap_data.length = 22) ∧
    (∀ hd s c r c2, parse_car_setup_data hd s c = .ok r c2 →
      r.car_setup_data.length = 22) ∧
    (∀ hd s c r c2, parse_car_telemetry_data hd s c = .ok r c2 →
      r.car_telemetry_data.length = 22) ∧
    (∀ hd s c r c2, parse_car_status_data hd s c = .ok r c2 →
      r.car_status_data.length = 22) ∧
    (∀ hd s c r c2, parse_participants_data hd s c = .ok r c2 →
      r.participants.length = 22) ∧
    (∀ hd s c r c2, parse_final_classification_data hd s c = .ok r c2 →
      r.final_classification_data.length = 22) ∧
    (∀ hd s c r c2, parse_lobby_info_data hd s c = .ok r c2 →
      r.lobby_info_data.length = 22) := by
  refine ⟨?_, ?_, ?_, ?_, ?_, ?_, ?_, ?_⟩
  · intro hd s c r c2 h
    simp only [parse_motion_data] at h
    obtain ⟨u, c1, -, h⟩ := PM.bind_ok_inv h
    obtain ⟨cars, cA, hcars, h⟩ := PM.bind_ok_inv h
    repeat obtain ⟨_, _, -, h⟩ := PM.bind_ok_inv h
    rw [PM.pure_apply] at h
    injection h with h1 h2
    subst h1
    simpa using parse_count_length parse_car_motion TOTAL_CARS _ _ _ hcars
  · intro hd s c r c2 h
    simp only [parse_lap_data] at h
    obtain ⟨u, c1, -, h⟩ := PM.bind_ok_inv h
    obtain ⟨cars, cA, hcars, h⟩ := PM.bind_ok_inv h
    rw [PM.pure_apply] at h
    injection h with h1 h2
    subst h1
    simpa using parse_count_length parse_lap TOTAL_CARS _ _ _ hcars
  · intro hd s c r c2 h
    simp only [parse_car_setup_data] at h
    obtain ⟨u, c1, -, h⟩ := PM.bind_ok_inv h
    obtain ⟨cars, cA, hcars, h⟩ := PM.bind_ok_inv h
    rw [PM.pure_apply] at h
    injection h with h1 h2
    subst h1
    simpa using parse_count_length parse_car_setup TOTAL_CARS _ _ _ hcars
  · intro hd s c r c2 h
    simp only [parse_car_telemetry_data] at h
    obtain ⟨u, c1, -, h⟩ := PM.bind_ok_inv h
    obtain ⟨cars, cA, hcars, h⟩ := PM.bind_ok_inv h
    repeat obtain ⟨_, _, -, h⟩ := PM.bind_ok_inv h
    rw [PM.pure_apply] at h
    injection h with h1 h2
    subst h1
    simpa using parse_count_length parse_car_telemetry TOTAL_CARS _ _ _ hcars
  · intro hd s c r c2 h
    simp only [parse_car_status_data] at h
    obtain ⟨u, c1, -, h⟩ := PM.bind_ok_inv h
    obtain ⟨cars, cA, hcars, h⟩ := PM.bind_ok_inv h
    rw [PM.pure_apply] at h
    injection h with h1 h2
    subst h1
    simpa using parse_count_length parse_car_status TOTAL_CARS _ _ _ hcars
  · intro hd s c r c2 h
    simp only [parse_participants_data] at h
    obtain ⟨u, c1, -, h⟩ := PM.bind_ok_inv h
    obtain ⟨n, cN, -, h⟩ := PM.bind_ok_inv h
    obtain ⟨cars, cA, hcars, h⟩ := PM.bind_ok_inv h
    rw [PM.pure_apply] at h
    injection h with h1 h2
    subst h1
    simpa using parse_count_length parse_participant TOTAL_CARS _ _ _ hcars
  · intro hd s c r c2 h
    simp only [parse_final_classification_data] at h
    obtain ⟨u, c1, -, h⟩ := PM.bind_ok_inv h
    obtain ⟨n, cN, -, h⟩ := PM.bind_ok_inv h
    obtain ⟨cars, cA, hcars, h⟩ := PM.bind_ok_inv h
    rw [PM.pure_apply] at h
    injection h with h1 h2
    subst h1
    simpa using parse_count_length parse_final_classification TOTAL_CARS _ _ _ hcars
  · intro hd s c r c2 h
    simp only [parse_lobby_info_data] at h
    obtain ⟨u, c1, -, h⟩ := PM.bind_ok_inv h
    obtain ⟨n, cN, -, h⟩ := PM.bind_ok_inv h
    obtain ⟨cars, cA, hcars, h⟩ := PM.bind_ok_inv h
    rw [PM.pure_apply] at h
    injection h with h1 h2
    subst h1
    simpa using parse_count_length parse_lobby_info TOTAL_CARS _ _ _ hcars

/-- C9 witness: each fixed-count kind decoded successfully from a
concrete all-zero payload of its exact minimum size (the in-packet
active-car, car and player counts read from those buffers are 0, smaller
than 22), with the 22-entry conclusion drawn by the theorem. -/
theorem fixed_car_arrays_have_22_entries_witness :
    (∃ r c2, parse_motion_data sample_header 1464 { buf := zerosBuf 1440, pos := 0 } =
      .ok r c2 ∧ r.motion_data.length = 22) ∧
    (∃ r c2, parse_lap_data sample_header 1190 { buf := zerosBuf 1166, pos := 0 } =
      .ok r c2 ∧ r.lap_data.length = 22) ∧
    (∃ r c2, parse_car_setup_data sample_header 1102 { buf := zerosBuf 1078, pos := 0 } =
      .ok r c2 ∧ r.car_setup_data.length = 22) ∧
    (∃ r c2, parse_car_telemetry_data sample_header 1307 { buf := zerosBuf 1283, pos := 0 } =
      .ok r c2 ∧ r.car_telemetry_data.length = 22) ∧
    (∃ r c2, parse_car_status_data sample_header 1344 { buf := zerosBuf 1320, pos := 0 } =
      .ok r c2 ∧ r.car_status_data.length = 22) ∧
    (∃ r c2, parse_participants_data sample_header 1213 { buf := zerosBuf 1189, pos := 0 } =
      .ok r c2 ∧ r.num_active_cars = 0 ∧ r.participants.length = 22) ∧
    (∃ r c2, parse_final_classification_data sample_header 839 { buf := zerosBuf 815, pos := 0 } =
      .ok r c2 ∧ r.num_cars = 0 ∧ r.final_classification_data.length = 22) ∧
    (∃ r c2, parse_lobby_info_data sample_header 1169 { buf := zerosBuf 1145, pos := 0 } =
      .ok r c2 ∧ r.num_players = 0 ∧ r.lobby_info_data.length = 22) := by
  refine ⟨?_, ?_, ?_, ?_, ?_, ?_, ?_, ?_⟩
  · obtain ⟨r, c2, hm⟩ := PRes.ok_of_toOk_isSome
      (p := parse_motion_data sample_header 1464 { buf := zerosBuf 1440, pos := 0 }) rfl
    exact ⟨r, c2, hm, fixed_car_arrays_have_22_entries.1 _ _ _ _ _ hm⟩
  · obtain ⟨r, c2, hm⟩ := PRes.ok_of_toOk_isSome
      (p := parse_lap_data sample_header 1190 { buf := zerosBuf 1166, pos := 0 }) rfl
    exact ⟨r, c2, hm, fixed_car_arrays_have_22_entries.2.1 _ _ _ _ _ hm⟩
  · obtain ⟨r, c2, hm⟩ := PRes.ok_of_toOk_isSome
      (p := parse_car_setup_data sample_header 1102 { buf := zerosBuf 1078, pos := 0 }) rfl
    exact ⟨r, c2, hm, fixed_car_arrays_have_22_entries.2.2.1 _ _ _ _ _ hm⟩
  · obtain ⟨r, c2, hm⟩ := PRes.ok_of_toOk_isSome
      (p := parse_car_telemetry_data sample_header 1307 { buf := zerosBuf 1283, pos := 0 }) rfl
    exact ⟨r, c2, hm, fixed_car_arrays_have_22_entries.2.2.2.1 _ _ _ _ _ hm⟩
  · obtain ⟨r, c2, hm⟩ := PRes.ok_of_toOk_isSome
      (p := parse_car_status_data sample_header 1344 { buf := zerosBuf 1320, pos := 0 }) rfl
    exact ⟨r, c2, hm, fixed_car_arrays_have_22_entries.2.2.2.2.1 _ _ _ _ _ hm⟩
  · obtain ⟨r, c2, hm⟩ := PRes.ok_of_toOk_isSome
      (p := parse_participants_data sample_header 1213 { buf := zerosBuf 1189, pos := 0 }) rfl
    refine ⟨r, c2, hm, ?_, fixed_car_arrays_have_22_entries.2.2.2.2.2.1 _ _ _ _ _ hm⟩
    have : (parse_participants_data sample_header 1213
        { buf := zerosBuf 1189, pos := 0 }).okVal.map (fun p => p.num_active_cars) =
        some 0 := rfl
    rw [hm] at this
    simpa [PRes.okVal] using this
  · obtain ⟨r, c2, hm⟩ := PRes.ok_of_toOk_isSome
      (p := parse_final_classification_data sample_header 839
        { buf := zerosBuf 815, pos := 0 }) rfl
    refine ⟨r, c2, hm, ?_, fixed_car_arrays_have_22_entries.2.2.2.2.2.2.1 _ _ _ _ _ hm⟩
    have : (parse_final_classification_data sample_header 839
        { buf := zerosBuf 815, pos := 0 }).okVal.map (fun p => p.num_cars) = some 0 := rfl
    rw [hm] at this
    simpa [PRes.okVal] using this
  · obtain ⟨r, c2, hm⟩ := PRes.ok_of_toOk_isSome
      (p := parse_lobby_info_data sample_header 1169 { buf := zerosBuf 1145, pos := 0 }) rfl
    refine ⟨r, c2, hm, ?_, fixed_car_arrays_have_22_entries.2.2.2.2.2.2.2 _ _ _ _ _ hm⟩
    have : (parse_lobby_info_data sample_header 1169
        { buf := zerosBuf 1145, pos := 0 }).okVal.map (fun p => p.num_players) = some 0 := rfl
    rw [hm] at this
    simpa [PRes.okVal] using this

theorem drop_eq_cons_of_byteAt :
    ∀ (p : Nat) (l : List Nat) (b : Nat), byteAt p l = some b →
      l.drop p = b :: l.drop (p + 1) := by
  intro p
  induction p with
  | zero => intro l b h; cases l with
    | nil => exact absurd h (by simp [byteAt])
    | cons a t => cases h; rfl
  | succ k ih => intro l b h; cases l with
    | nil => exact absurd h (by simp [byteAt])
    | cons a t => simpa using ih t b h

theorem read_u8_ok_inv {c c1 : Cursor} {b : Nat} (h : read_u8 c = .ok b c1) :
    c.buf c.pos = some b ∧ c1 = { c with pos := c.pos + 1 } := by
  simp only [read_u8] at h
  cases hb : c.buf c.pos <;> rw [hb] at h
  · exact absurd h (by simp)
  · injection h with h1 h2
    subst h1
    exact ⟨rfl, h2.symm⟩

theorem parse_name_loop_ok :
    ∀ (k p : Nat) (l : List Nat) (letters : List Nat) (c2 : Cursor),
      parse_name_loop k { buf := bufOfList l, pos := p } = .ok letters c2 →
      letters = ((l.drop p).take k).takeWhile (fun b => b ≠ 0) ∧ c2.buf = bufOfList l := by
  intro k
  induction k with
  | zero =>
    intro p l letters c2 h
    rw [parse_name_loop_zero, PM.pure_apply] at h
    injection h with h1 h2
    subst h1
    simp [h2.symm]
  | succ k ih =>
    intro p l letters c2 h
    rw [parse_name_loop_succ] at h
    cases hb : bufOfList l p with
    | none =>
      simp only [read_u8, show ({ buf := bufOfList l, pos := p } : Cursor).buf p = bufOfList l p
        from rfl, hb] at h
      exact absurd h (by simp)
    | some b =>
      simp only [read_u8, show ({ buf := bufOfList l, pos := p } : Cursor).buf p = bufOfList l p
        from rfl, hb] at h
      have hdrop : l.drop p = b :: l.drop (p + 1) := drop_eq_cons_of_byteAt p l b hb
      by_cases hb0 : b = 0
      · subst hb0
        rw [if_pos rfl] at h
        injection h with h1 h2
        subst h1
        simp [hdrop, h2.symm]
      · rw [if_neg hb0] at h
        cases hrec : parse_name_loop k { buf := bufOfList l, pos := p + 1 } with
        | ok bs c3 =>
          rw [hrec] at h
          injection h with h1 h2
          subst h1
          obtain ⟨hbs, hbuf⟩ := ih (p + 1) l bs c3 hrec
          subst h2
          refine ⟨?_, hbuf⟩
          simp [hdrop, hb0, hbs]
        | err e c3 => rw [hrec] at h; exact absurd h (by simp)
        | panicked m => rw [hrec] at h; exact absurd h (by simp)

theorem read_count_u8_ok :
    ∀ (k p : Nat) (l : List Nat) (bs : List Nat) (c2 : Cursor),
      parse_count read_u8 k { buf := bufOfList l, pos := p } = .ok bs c2 →
      bs = (l.drop p).take k ∧ bs.length = k ∧ c2 = { buf := bufOfList l, pos := p + k } := by
  intro k
  induction k with
  | zero =>
    intro p l bs c2 h
    rw [parse_count_zero, PM.pure_apply] at h
    injection h with h1 h2
    subst h1
    simp [h2.symm]
  | succ k ih =>
    intro p l bs c2 h
    rw [parse_count_succ] at h
    obtain ⟨b, c1, hrd, h⟩ := PM.bind_ok_inv h
    obtain ⟨hbyte, hc1⟩ := read_u8_ok_inv hrd
    subst hc1
    obtain ⟨rest, c3, hrest, h⟩ := PM.bind_ok_inv h
    rw [PM.pure_apply] at h
    injection h with h1 h2
    subst h1
    subst h2
    obtain ⟨hbs, hlen, hc3⟩ := ih (p + 1) l rest c3 hrest
    have hdrop : l.drop p = b :: l.drop (p + 1) := drop_eq_cons_of_byteAt p l b hbyte
    refine ⟨by simp [hdrop, hbs], by simp [hlen], ?_⟩
    rw [hc3]
    simp [Nat.add_assoc, Nat.add_comm 1 k]

/-- Name slot holding "Max Verstappen" null-terminated and padded with
nulls to the fixed 48 bytes. -/
def max_verstappen_slot : List Nat :=
  [77, 97, 120, 32, 86, 101, 114, 115, 116, 97, 112, 112, 101, 110, 0,
   0, 0, 0, 0, 0, 0, 0, 0, 0, 0, 0, 0, 0, 0, 0, 0, 0, 0,
   0, 0, 0, 0, 0, 0, 0, 0, 0, 0, 0, 0, 0, 0, 0]

/-- C6 (amended): the Participants name decoder returns the bytes of the
48-byte slot strictly before the first null, and leaves the cursor
exactly 48 bytes past where it started wherever the null occurs (the
"Max Verstappen" scenario decodes accordingly); the LobbyInfo name loop,
by contrast, performs no null truncation: it returns all 48 slot bytes
verbatim and advances the cursor by 48. -/
theorem name_field_decoding :
    (∀ (l : List Nat) (p : Nat) (s : String) (c2 : Cursor),
      parse_name { buf := bufOfList l, pos := p } = .ok s c2 →
      c2 = { buf := bufOfList l, pos := p + 48 } ∧
      s = String.mk ((((l.drop p).take 48).takeWhile (fun b => b ≠ 0)).map Char.ofNat)) ∧
    (∀ (l : List Nat) (p : Nat) (bs : List Nat) (c2 : Cursor),
      read_lobby_name { buf := bufOfList l, pos := p } = .ok bs c2 →
      bs = (l.drop p).take 48 ∧ bs.length = 48 ∧
      c2 = { buf := bufOfList l, pos := p + 48 }) ∧
    parse_name { buf := bufOfList max_verstappen_slot, pos := 0 } =
      .ok "Max Verstappen" { buf := bufOfList max_verstappen_slot, pos := 48 } := by
  refine ⟨?_, ?_, rfl⟩
  · intro l p s c2 h
    simp only [parse_name] at h
    cases hloop : parse_name_loop 48 { buf := bufOfList l, pos := p } with
    | ok letters c1 =>
      rw [hloop] at h
      injection h with h1 h2
      subst h1
      obtain ⟨hlet, hbuf⟩ := parse_name_loop_ok 48 p l letters c1 hloop
      constructor
      · rw [← h2, hbuf]
      · rw [hlet]
    | err e c1 => rw [hloop] at h; exact absurd h (by simp)
    | panicked m => rw [hloop] at h; exact absurd h (by simp)
  · intro l p bs c2 h
    exact read_count_u8_ok 48 p l bs c2 h

/-- C6 witness: the truncating branch applied to the concrete
"Max Verstappen" slot (null at index 14), and the lobby branch applied to
the same 48-byte slot, which it returns whole. -/
theorem name_field_decoding_witness :
    (({ buf := bufOfList max_verstappen_slot, pos := 48 } : Cursor) =
      { buf := bufOfList max_verstappen_slot, pos := 0 + 48 } ∧
     "Max Verstappen" = String.mk ((((max_verstappen_slot.drop 0).take 48).takeWhile
       (fun b => b ≠ 0)).map Char.ofNat)) ∧
    (max_verstappen_slot = (max_verstappen_slot.drop 0).take 48 ∧
     max_verstappen_slot.length = 48 ∧
     ({ buf := bufOfList max_verstappen_slot, pos := 48 } : Cursor) =
       { buf := bufOfList max_verstappen_slot, pos := 0 + 48 }) :=
  ⟨name_field_decoding.1 max_verstappen_slot 0 "Max Verstappen"
      { buf := bufOfList max_verstappen_slot, pos := 48 } rfl,
   name_field_decoding.2.1 max_verstappen_slot 0 max_verstappen_slot
      { buf := bufOfList max_verstappen_slot, pos := 48 } rfl⟩

/-- Concrete lobby-info entry: not AI, team 0, nationality 0, a 48-byte
name slot holding "A" then nulls, ready status 0. -/
def lobby_entry_bytes : List Nat :=
  [0, 0, 0,
   65, 0, 0, 0, 0, 0, 0, 0, 0, 0, 0, 0, 0, 0, 0, 0, 0, 0, 0, 0, 0, 0,
   0, 0, 0, 0, 0, 0, 0, 0, 0, 0, 0, 0, 0, 0, 0, 0, 0, 0, 0, 0, 0, 0,
   0, 0, 0, 0,
   0]

/-- C6 counterexample: the lobby-info decoder keeps all 48 name bytes
(nulls included), so its decoded name has length 48 where the claimed
truncation at the first null would give the one-character name before
it. -/
theorem lobby_name_not_truncated :
    ((parse_lobby_info { buf := bufOfList lobby_entry_bytes, pos := 0 }).okVal.map
      (fun d => d.name.length)) = some 48 ∧
    ((parse_lobby_info { buf := bufOfList lobby_entry_bytes, pos := 0 }).okVal.map
      (fun d => d.name.length)) ≠ some 1 := by
  constructor
  · rfl
  · have h : ((parse_lobby_info { buf := bufOfList lobby_entry_bytes, pos := 0 }).okVal.map
      (fun d => d.name.length)) = some 48 := rfl
    rw [h]
    decide

/-- C8: each of the 11 known 4-byte ASCII event codes consumes exactly
its documented trailing fields and yields the matching variant (SSTA,
SEND, DRSE, DRSD, CHQF consume nothing further and finish 4 bytes in;
FTLP consumes a vehicle index and an f32 lap time, finishing at 9 bytes,
with the lap-time float fed to Duration::from_secs_f32; RTMT, TMPT and
RCWN consume one vehicle index; PENA consumes penalty-type code,
infringement-type code, two vehicle indices, a u8 time in seconds, lap
number and places gained, finishing at 11 bytes; SPTP consumes a vehicle
index and a raw f32 speed), and any other 4-byte code yields the
unknown-event-code error with the cursor exactly 4 bytes in, no further
bytes interpreted. -/
theorem event_code_dispatch :
    (∀ c : Cursor, c.buf c.pos = some 83 → c.buf (c.pos + 1) = some 83 →
      c.buf (c.pos + 2) = some 84 → c.buf (c.pos + 3) = some 65 →
      parse_event c = .ok .SessionStarted { buf := c.buf, pos := c.pos + 4 }) ∧
    (∀ c : Cursor, c.buf c.pos = some 83 → c.buf (c.pos + 1) = some 69 →
      c.buf (c.pos + 2) = some 78 → c.buf (c.pos + 3) = some 68 →
      parse_event c = .ok .SessionEnded { buf := c.buf, pos := c.pos + 4 }) ∧
    (∀ (c : Cursor) (vi t0 t1 t2 t3 : Nat),
      c.buf c.pos = some 70 → c.buf (c.pos + 1) = some 84 →
      c.buf (c.pos + 2) = some 76 → c.buf (c.pos + 3) = some 80 →
      c.buf (c.pos + 4) = some vi →
      c.buf (c.pos + 5) = some t0 → c.buf (c.pos + 6) = some t1 →
      c.buf (c.pos + 7) = some t2 → c.buf (c.pos + 8) = some t3 →
      parse_event c =
        (match Duration.from_secs_f32 (t0 + 256 * t1 + 65536 * (t2 + 256 * t3)) with
        | .ok d => .ok (.FastestLap { vehicle_index := vi, lap_time := d })
            { buf := c.buf, pos := c.pos + 9 }
        | .error m => .panicked m)) ∧
    (∀ (c : Cursor) (vi : Nat), c.buf c.pos = some 82 → c.buf (c.pos + 1) = some 84 →
      c.buf (c.pos + 2) = some 77 → c.buf (c.pos + 3) = some 84 →
      c.buf (c.pos + 4) = some vi →
      parse_event c = .ok (.Retirement { vehicle_index := vi })
        { buf := c.buf, pos := c.pos + 5 }) ∧
    (∀ c : Cursor, c.buf c.pos = some 68 → c.buf (c.pos + 1) = some 82 →
      c.buf (c.pos + 2) = some 83 → c.buf (c.pos + 3) = some 69 →
      parse_event c = .ok .DRSEnabled { buf := c.buf, pos := c.pos + 4 }) ∧
    (∀ c : Cursor, c.buf c.pos = some 68 → c.buf (c.pos + 1) = some 82 →
      c.buf (c.pos + 2) = some 83 → c.buf (c.pos + 3) = some 68 →
      parse_event c = .ok .DRSDisabled { buf := c.buf, pos := c.pos + 4 }) ∧
    (∀ (c : Cursor) (vi : Nat), c.buf c.pos = some 84 → c.buf (c.pos + 1) = some 77 →
      c.buf (c.pos + 2) = some 80 → c.buf (c.pos + 3) = some 84 →
      c.buf (c.pos + 4) = some vi →
      parse_event c = .ok (.TeamMateInPits { vehicle_index := vi })
        { buf := c.buf, pos := c.pos + 5 }) ∧
    (∀ c : Cursor, c.buf c.pos = some 67 → c.buf (c.pos + 1) = some 72 →
      c.buf (c.pos + 2) = some 81 → c.buf (c.pos + 3) = some 70 →
      parse_event c = .ok .ChequeredFlag { buf := c.buf, pos := c.pos + 4 }) ∧
    (∀ (c : Cursor) (vi : Nat), c.buf c.pos = some 82 → c.buf (c.pos + 1) = some 67 →
      c.buf (c.pos + 2) = some 87 → c.buf (c.pos + 3) = some 78 →
      c.buf (c.pos + 4) = some vi →
      parse_event c = .ok (.RaceWinner { vehicle_index := vi })
        { buf := c.buf, pos := c.pos + 5 }) ∧
    (∀ (c : Cursor) (pt it vi ovi t lap pg : Nat),
      c.buf c.pos = some 80 → c.buf (c.pos + 1) = some 69 →
      c.buf (c.pos + 2) = some 78 → c.buf (c.pos + 3) = some 65 →
      c.buf (c.pos + 4) = some pt → c.buf (c.pos + 5) = some it →
      c.buf (c.pos + 6) = some vi → c.buf (c.pos + 7) = some ovi →
      c.buf (c.pos + 8) = some t → c.buf (c.pos + 9) = some lap →
      c.buf (c.pos + 10) = some pg →
      parse_event c =
        (match parse_penalty_type pt with
        | .error e1 => .err e1 { buf := c.buf, pos := c.pos + 5 }
        | .ok ptv =>
          match parse_infringement_type it with
          | .error e2 => .err e2 { buf := c.buf, pos := c.pos + 6 }
          | .ok itv => .ok (.Penalty {
              penalty_type := ptv
              infringement_type := itv
              vehicle_index := vi
              other_vehicle_index := ovi
              time := Duration.from_secs t
              lap_num := lap
              places_gained := pg })
              { buf := c.buf, pos := c.pos + 11 })) ∧
    (∀ (c : Cursor) (vi s0 s1 s2 s3 : Nat),
      c.buf c.pos = some 83 → c.buf (c.pos + 1) = some 80 →
      c.buf (c.pos + 2) = some 84 → c.buf (c.pos + 3) = some 80 →
      c.buf (c.pos + 4) = some vi →
      c.buf (c.pos + 5) = some s0 → c.buf (c.pos + 6) = some s1 →
      c.buf (c.pos + 7) = some s2 → c.buf (c.pos + 8) = some s3 →
      parse_event c = .ok (.SpeedTrap {
          vehicle_index := vi
          speed := s0 + 256 * s1 + 65536 * (s2 + 256 * s3) })
        { buf := c.buf, pos := c.pos + 9 }) ∧
    (∀ (c : Cursor) (b0 b1 b2 b3 : Nat),
      c.buf c.pos = some b0 → c.buf (c.pos + 1) = some b1 →
      c.buf (c.pos + 2) = some b2 → c.buf (c.pos + 3) = some b3 →
      String.mk [Char.ofNat b0, Char.ofNat b1, Char.ofNat b2, Char.ofNat b3] ∉
        (["SSTA", "SEND", "FTLP", "RTMT", "DRSE", "DRSD", "TMPT", "CHQF", "RCWN",
          "PENA", "SPTP"] : List String) →
      parse_event c = .err (.invalidData "Invalid event code")
        { buf := c.buf, pos := c.pos + 4 }) := by
  refine ⟨?_, ?_, ?_, ?_, ?_, ?_, ?_, ?_, ?_, ?_, ?_, ?_⟩
  · intro c h0 h1 h2 h3
    have e : String.mk [Char.ofNat 83, Char.ofNat 83, Char.ofNat 84, Char.ofNat 65] =
      "SSTA" := by decide
    simp [parse_event, read_u8, PM.bind_apply, PM.pure_apply, h0, h1, h2, h3, e]
  · intro c h0 h1 h2 h3
    have e : String.mk [Char.ofNat 83, Char.ofNat 69, Char.ofNat 78, Char.ofNat 68] =
      "SEND" := by decide
    simp [parse_event, read_u8, PM.bind_apply, PM.pure_apply, h0, h1, h2, h3, e]
  · intro c vi t0 t1 t2 t3 h0 h1 h2 h3 h4 h5 h6 h7 h8
    have e : String.mk [Char.ofNat 70, Char.ofNat 84, Char.ofNat 76, Char.ofNat 80] =
      "FTLP" := by decide
    cases hd : Duration.from_secs_f32 (t0 + 256 * t1 + 65536 * (t2 + 256 * t3)) with
    | ok d =>
      simp [parse_event, read_u8, read_u16, read_u32, read_f32, liftDur, PM.bind_apply,
        PM.pure_apply, h0, h1, h2, h3, h4, h5, h6, h7, h8, e, hd]
    | error m =>
      simp [parse_event, read_u8, read_u16, read_u32, read_f32, liftDur, PM.bind_apply,
        PM.pure_apply, h0, h1, h2, h3, h4, h5, h6, h7, h8, e, hd]
  · intro c vi h0 h1 h2 h3 h4
    have e : String.mk [Char.ofNat 82, Char.ofNat 84, Char.ofNat 77, Char.ofNat 84] =
      "RTMT" := by decide
    simp [parse_event, read_u8, PM.bind_apply, PM.pure_apply, h0, h1, h2, h3, h4, e]
  · intro c h0 h1 h2 h3
    have e : String.mk [Char.ofNat 68, Char.ofNat 82, Char.ofNat 83, Char.ofNat 69] =
      "DRSE" := by decide
    simp [parse_event, read_u8, PM.bind_apply, PM.pure_apply, h0, h1, h2, h3, e]
  · intro c h0 h1 h2 h3
    have e : String.mk [Char.ofNat 68, Char.ofNat 82, Char.ofNat 83, Char.ofNat 68] =
      "DRSD" := by decide
    simp [parse_event, read_u8, PM.bind_apply, PM.pure_apply, h0, h1, h2, h3, e]
  · intro c vi h0 h1 h2 h3 h4
    have e : String.mk [Char.ofNat 84, Char.ofNat 77, Char.ofNat 80, Char.ofNat 84] =
      "TMPT" := by decide
    simp [parse_event, read_u8, PM.bind_apply, PM.pure_apply, h0, h1, h2, h3, h4, e]
  · intro c h0 h1 h2 h3
    have e : String.mk [Char.ofNat 67, Char.ofNat 72, Char.ofNat 81, Char.ofNat 70] =
      "CHQF" := by decide
    simp [parse_event, read_u8, PM.bind_apply, PM.pure_apply, h0, h1, h2, h3, e]
  · intro c vi h0 h1 h2 h3 h4
    have e : String.mk [Char.ofNat 82, Char.ofNat 67, Char.ofNat 87, Char.ofNat 78] =
      "RCWN" := by decide
    simp [parse_event, read_u8, PM.bind_apply, PM.pure_apply, h0, h1, h2, h3, h4, e]
  · intro c pt it vi ovi t lap pg h0 h1 h2 h3 h4 h5 h6 h7 h8 h9 h10
    have e : String.mk [Char.ofNat 80, Char.ofNat 69, Char.ofNat 78, Char.ofNat 65] =
      "PENA" := by decide
    cases hpt : parse_penalty_type pt with
    | error e1 =>
      simp [parse_event, read_u8, liftR, PM.bind_apply, PM.pure_apply,
        h0, h1, h2, h3, h4, h5, h6, h7, h8, h9, h10, e, hpt]
    | ok ptv =>
      cases hit : parse_infringement_type it with
      | error e2 =>
        simp [parse_event, read_u8, liftR, PM.bind_apply, PM.pure_apply,
          h0, h1, h2, h3, h4, h5, h6, h7, h8, h9, h10, e, hpt, hit]
      | ok itv =>
        simp [parse_event, read_u8, liftR, PM.bind_apply, PM.pure_apply,
          h0, h1, h2, h3, h4, h5, h6, h7, h8, h9, h10, e, hpt, hit]
  · intro c vi s0 s1 s2 s3 h0 h1 h2 h3 h4 h5 h6 h7 h8
    have e : String.mk [Char.ofNat 83, Char.ofNat 80, Char.ofNat 84, Char.ofNat 80] =
      "SPTP" := by decide
    simp [parse_event, read_u8, read_u16, read_u32, read_f32, PM.bind_apply, PM.pure_apply,
      h0, h1, h2, h3, h4, h5, h6, h7, h8, e]
  · intro c b0 b1 b2 b3 h0 h1 h2 h3 hne
    simp only [List.mem_cons, List.mem_singleton, not_or] at hne
    obtain ⟨n1, n2, n3, n4, n5, n6, n7, n8, n9, n10, n11, -⟩ := hne
    simp [parse_event, read_u8, PM.bind_apply, PM.pure_apply, h0, h1, h2, h3, liftR,
      n1, n2, n3, n4, n5, n6, n7, n8, n9, n10, n11]

/-- C8 witness: the dispatch theorem applied to concrete buffers for all
eleven known codes and one unknown code XXXX (lap time 1.0f32 for FTLP,
penalty inputs 0/0 for PENA), each consuming exactly its documented
byte count. -/
theorem event_code_dispatch_witness :
    parse_event { buf := bufOfList [83, 83, 84, 65], pos := 0 } =
      .ok .SessionStarted { buf := bufOfList [83, 83, 84, 65], pos := 0 + 4 } ∧
    parse_event { buf := bufOfList [83, 69, 78, 68], pos := 0 } =
      .ok .SessionEnded { buf := bufOfList [83, 69, 78, 68], pos := 0 + 4 } ∧
    parse_event { buf := bufOfList [70, 84, 76, 80, 5, 0, 0, 128, 63], pos := 0 } =
      .ok (.FastestLap { vehicle_index := 5, lap_time := { secs := 1, nanos := 0 } })
        { buf := bufOfList [70, 84, 76, 80, 5, 0, 0, 128, 63], pos := 0 + 9 } ∧
    parse_event { buf := bufOfList [82, 84, 77, 84, 7], pos := 0 } =
      .ok (.Retirement { vehicle_index := 7 })
        { buf := bufOfList [82, 84, 77, 84, 7], pos := 0 + 5 } ∧
    parse_event { buf := bufOfList [68, 82, 83, 69], pos := 0 } =
      .ok .DRSEnabled { buf := bufOfList [68, 82, 83, 69], pos := 0 + 4 } ∧
    parse_event { buf := bufOfList [68, 82, 83, 68], pos := 0 } =
      .ok .DRSDisabled { buf := bufOfList [68, 82, 83, 68], pos := 0 + 4 } ∧
    parse_event { buf := bufOfList [84, 77, 80, 84, 3], pos := 0 } =
      .ok (.TeamMateInPits { vehicle_index := 3 })
        { buf := bufOfList [84, 77, 80, 84, 3], pos := 0 + 5 } ∧
    parse_event { buf := bufOfList [67, 72, 81, 70], pos := 0 } =
      .ok .ChequeredFlag { buf := bufOfList [67, 72, 81, 70], pos := 0 + 4 } ∧
    parse_event { buf := bufOfList [82, 67, 87, 78, 11], pos := 0 } =
      .ok (.RaceWinner { vehicle_index := 11 })
        { buf := bufOfList [82, 67, 87, 78, 11], pos := 0 + 5 } ∧
    parse_event { buf := bufOfList [80, 69, 78, 65, 0, 0, 1, 2, 5, 3, 1], pos := 0 } =
      .ok (.Penalty {
          penalty_type := .DriveThrough
          infringement_type := .BlockingBySlowDriving
          vehicle_index := 1
          other_vehicle_index := 2
          time := Duration.from_secs 5
          lap_num := 3
          places_gained := 1 })
        { buf := bufOfList [80, 69, 78, 65, 0, 0, 1, 2, 5, 3, 1], pos := 0 + 11 } ∧
    parse_event { buf := bufOfList [83, 80, 84, 80, 9, 0, 0, 72, 67], pos := 0 } =
      .ok (.SpeedTrap { vehicle_index := 9, speed := 0 + 256 * 0 + 65536 * (72 + 256 * 67) })
        { buf := bufOfList [83, 80, 84, 80, 9, 0, 0, 72, 67], pos := 0 + 9 } ∧
    parse_event { buf := bufOfList [88, 88, 88, 88, 1, 2, 3], pos := 0 } =
      .err (.invalidData "Invalid event code")
        { buf := bufOfList [88, 88, 88, 88, 1, 2, 3], pos := 0 + 4 } :=
  ⟨event_code_dispatch.1 _ rfl rfl rfl rfl,
   event_code_dispatch.2.1 _ rfl rfl rfl rfl,
   event_code_dispatch.2.2.1 _ 5 0 0 128 63 rfl rfl rfl rfl rfl rfl rfl rfl rfl,
   event_code_dispatch.2.2.2.1 _ 7 rfl rfl rfl rfl rfl,
   event_code_dispatch.2.2.2.2.1 _ rfl rfl rfl rfl,
   event_code_dispatch.2.2.2.2.2.1 _ rfl rfl rfl rfl,
   event_code_dispatch.2.2.2.2.2.2.1 _ 3 rfl rfl rfl rfl rfl,
   event_code_dispatch.2.2.2.2.2.2.2.1 _ rfl rfl rfl rfl,
   event_code_dispatch.2.2.2.2.2.2.2.2.1 _ 11 rfl rfl rfl rfl rfl,
   event_code_dispatch.2.2.2.2.2.2.2.2.2.1 _ 0 0 1 2 5 3 1 rfl rfl rfl rfl rfl rfl rfl rfl
     rfl rfl rfl,
   event_code_dispatch.2.2.2.2.2.2.2.2.2.2.1 _ 9 0 0 72 67 rfl rfl rfl rfl rfl rfl rfl rfl rfl,
   event_code_dispatch.2.2.2.2.2.2.2.2.2.2.2 _ 88 88 88 88 rfl rfl rfl rfl (by decide)⟩
